import Mathlib

/-!
Verification development for the mock 2D canvas rendering context
(`src/classes/CanvasRenderingContext2D.js`).

The JavaScript class is shallowly embedded as follows.

* JS numbers are modelled by `JSNum`: an exact rational for every finite
  double, plus `nan` and signed infinities.  Exact rational arithmetic is
  the usual idealisation of JS doubles; no claim below depends on rounding
  or overflow.
* JS values that flow through the public surface are modelled by the
  mutually inductive `JSVal` / `CEvent` (an event record can hold a
  captured path, which is a list of event records).
* The context instance is the structure `Ctx`.  Two kinds of internal
  arrays are observable *by reference* in the source (the per-frame
  transform arrays, which `save()` pushes without copying, and the line
  dash arrays, which `getLineDash()` returns without copying), so those
  live in an explicit heap `Ctx.heap : List (List JSNum)` and the stacks
  hold `JSVal.ref` pointers into it.  Every other array in the source is
  only ever exposed through `.slice()` copies and is modelled by value.
* External collaborators (the `parse-color` and `cssfontparser` npm
  packages, `Math.cos`/`Math.sin`) are parameters, bundled in `JSEnv`,
  exactly as the specification treats them ("external collaborators").
* A method call is `runOp : JSEnv → CanvasOp → Ctx → Ctx × Option Err`;
  the returned context is the state after the call, and the `Option Err`
  is the exception thrown, if any (the state at the moment of the throw
  is the returned context, so atomicity of raising operations is a real
  theorem, not a modelling artefact).
-/

/-- A JavaScript number: finite (exact rational), NaN, or a signed
infinity.  `inf true` is `+Infinity`, `inf false` is `-Infinity`. -/
inductive JSNum : Type where
  | fin (q : ℚ)
  | nan
  | inf (pos : Bool)
deriving DecidableEq, Repr

/-- JS addition on numbers (IEEE rules at the granularity the source
observes: NaN propagates, same-signed infinities keep their sign,
opposite infinities give NaN). -/
def JSNum.add : JSNum → JSNum → JSNum
  | .fin a, .fin b => .fin (a + b)
  | .nan, _ => .nan
  | _, .nan => .nan
  | .inf p, .fin _ => .inf p
  | .fin _, .inf p => .inf p
  | .inf p, .inf q => if p = q then .inf p else .nan

/-- JS multiplication on numbers (NaN propagates; `0 * Infinity` is NaN;
otherwise infinities multiply finite nonzero values by sign). -/
def JSNum.mul : JSNum → JSNum → JSNum
  | .fin a, .fin b => .fin (a * b)
  | .nan, _ => .nan
  | _, .nan => .nan
  | .inf p, .inf q => .inf (p = q)
  | .inf p, .fin b => if b = 0 then .nan else .inf (p = decide (0 < b))
  | .fin a, .inf q => if a = 0 then .nan else .inf (q = decide (0 < a))

/-- `Number.isFinite` on an already-numeric value. -/
def JSNum.isFinite : JSNum → Bool
  | .fin _ => true
  | _ => false

/-- JS `<` on numbers (false whenever either side is NaN). -/
def JSNum.lt : JSNum → JSNum → Bool
  | .fin a, .fin b => decide (a < b)
  | .nan, _ => false
  | _, .nan => false
  | .inf p, .fin _ => !p
  | .fin _, .inf q => q
  | .inf p, .inf q => !p && q

/-- JS `Math.abs`. -/
def JSNum.abs : JSNum → JSNum
  | .fin a => .fin |a|
  | .nan => .nan
  | .inf _ => .inf true

/-- String rendering of a number, used only inside string concatenations
and event payloads whose exact text no claim inspects.  Integral values
render exactly as in JS; non-integral rationals use the Lean `num/den`
rendering instead of decimal notation. -/
def JSNum.toJSString : JSNum → String
  | .fin q => if q.den = 1 then toString q.num else toString q
  | .nan => "NaN"
  | .inf true => "Infinity"
  | .inf false => "-Infinity"

/-- the kinds of image-like host objects the source discriminates with
`instanceof` (spec §9: modelled as a closed set of tagged variants). -/
inductive ImgKind : Type where
  | htmlImage
  | htmlVideo
  | htmlCanvas
  | imageBitmap
deriving DecidableEq, Repr

mutual

/-- A JavaScript value as observed by the public surface of the context.
`ref` is a pointer into the context array heap (live transform / line
dash arrays); `segs` is a captured path segment array held by value
(the source only ever stores `.slice()` copies of paths inside events);
`path2D` is a `Path2D` object carrying its `_path`. -/
inductive JSVal : Type where
  | undefined : JSVal
  | null : JSVal
  | bool : Bool → JSVal
  | num : JSNum → JSVal
  | str : String → JSVal
  | arr : List JSVal → JSVal
  | obj : List (String × JSVal) → JSVal
  | ref : Nat → JSVal
  | segs : List CEvent → JSVal
  | path2D : List CEvent → JSVal
  | gradient : JSVal
  | pattern : JSVal
  | image : ImgKind → JSNum → JSNum → Bool → JSVal
  | imageData : JSNum → JSNum → JSVal
  | domMatrix : JSNum → JSNum → JSNum → JSNum → JSNum → JSNum → JSVal
  | elem : JSVal

/-- One record produced by `createCanvasEvent(type, transform, props)`:
a type tag, the transform slice active at the call, and the property
bag in source order. -/
inductive CEvent : Type where
  | mk : String → List JSNum → List (String × JSVal) → CEvent

end

/-- the `type` field of an event record. -/
def CEvent.type : CEvent → String
  | .mk t _ _ => t

/-- the `transform` field of an event record. -/
def CEvent.transform : CEvent → List JSNum
  | .mk _ m _ => m

/-- the `props` field of an event record. -/
def CEvent.props : CEvent → List (String × JSVal)
  | .mk _ _ p => p

/-- Digits-to-number accumulator for the decimal parser. -/
def digitsToNat (l : List Char) : Nat :=
  l.foldl (fun n c => 10 * n + (c.toNat - 48)) 0

/-- Parse an unsigned decimal literal (`"12"`, `"12."`, `".5"`, `"3.25"`).
Returns `none` when the character list is not such a literal. -/
def parseDecimal (s : List Char) : Option ℚ :=
  let intPart := s.takeWhile Char.isDigit
  let rest := s.dropWhile Char.isDigit
  match rest with
  | [] => if intPart.isEmpty then none else some (digitsToNat intPart)
  | '.' :: frac =>
    if frac.all Char.isDigit && !(intPart.isEmpty && frac.isEmpty) then
      some ((digitsToNat intPart : ℚ) + (digitsToNat frac : ℚ) / ((10 : ℚ) ^ frac.length))
    else none
  | _ => none

/-- JS whitespace as far as `Number()` trimming is concerned. -/
def isJSSpace (c : Char) : Bool :=
  c = ' ' || c = '\t' || c = '\n' || c = '\r'

/-- JS `Number(string)`.  Decimal integer/fraction literals, signs,
`Infinity` and the empty string are modelled exactly; hexadecimal and
exponent forms (which nothing in the claims exercises) fall to NaN. -/
def jsParseNumber (s : String) : JSNum :=
  let cs0 := ((s.data.dropWhile isJSSpace).reverse.dropWhile isJSSpace).reverse
  if cs0.isEmpty then .fin 0
  else if cs0 = "Infinity".data || cs0 = "+Infinity".data then .inf true
  else if cs0 = "-Infinity".data then .inf false
  else
    match cs0 with
    | '-' :: rest => (match parseDecimal rest with | some q => .fin (-q) | none => .nan)
    | '+' :: rest => (match parseDecimal rest with | some q => .fin q | none => .nan)
    | cs => (match parseDecimal cs with | some q => .fin q | none => .nan)

/-- String rendering of a scalar value; object-like values render as
their JS `[object …]` tags.  Array contents render one level deep, which
is all any claim can observe. -/
def jsScalarToString : JSVal → String
  | .undefined => "undefined"
  | .null => "null"
  | .bool b => if b then "true" else "false"
  | .num n => n.toJSString
  | .str s => s
  | _ => ""

/-- JS `String(v)`. -/
def jsToString : JSVal → String
  | .arr l => String.intercalate "," (l.map jsScalarToString)
  | .obj _ => "[object Object]"
  | .ref _ => ""
  | .segs _ => ""
  | .path2D _ => "[object Path2D]"
  | .gradient => "[object CanvasGradient]"
  | .pattern => "[object CanvasPattern]"
  | .image _ _ _ _ => "[object HTMLImageElement]"
  | .imageData _ _ => "[object ImageData]"
  | .domMatrix _ _ _ _ _ _ => "[object DOMMatrix]"
  | .elem => "[object Element]"
  | v => jsScalarToString v

/-- Numeric coercion of a scalar (helper for one-element arrays). -/
def jsScalarToNumber : JSVal → JSNum
  | .undefined => .nan
  | .null => .fin 0
  | .bool b => .fin (if b then 1 else 0)
  | .num n => n
  | .str s => jsParseNumber s
  | _ => .nan

/-- JS `Number(v)`. -/
def jsToNumber : JSVal → JSNum
  | .arr [] => .fin 0
  | .arr [v] => jsScalarToNumber v
  | .arr _ => .nan
  | v => jsScalarToNumber v

/-- JS truthiness. -/
def jsTruthy : JSVal → Bool
  | .undefined => false
  | .null => false
  | .bool b => b
  | .num (.fin q) => q ≠ 0
  | .num .nan => false
  | .num (.inf _) => true
  | .str s => s ≠ ""
  | _ => true

/-- Does `+` treat this operand as a string (after ToPrimitive)?  All
object-like values convert to strings for `+`. -/
def jsIsStringy : JSVal → Bool
  | .undefined => false
  | .null => false
  | .bool _ => false
  | .num _ => false
  | _ => true

/-- JS `+` on arbitrary values: string concatenation when either operand
is string-like, numeric addition otherwise. -/
def jsValAdd (a b : JSVal) : JSVal :=
  if jsIsStringy a || jsIsStringy b then .str (jsToString a ++ jsToString b)
  else .num ((jsToNumber a).add (jsToNumber b))

/-- JS `Number.isFinite(v)` (no coercion: only an already-finite number
passes). -/
def jsIsFinite : JSVal → Bool
  | .num n => n.isFinite
  | _ => false

/-- An exception thrown by a context method.  The source throws
`TypeError(msg)` and `DOMException(a, b)` (with the error-name-like
string as the *first* `DOMException` argument, as written). -/
inductive Err : Type where
  | typeError (msg : String)
  | domException (arg1 arg2 : String)
deriving DecidableEq, Repr

/-- Result shape of the external `parse-color` package as the source
consumes it: an optional `rgba` array and an optional `hex` string. -/
structure ParseColorResult where
  rgba : Option (List ℚ)
  hex : Option String

/-- External collaborators of the context (spec §1 treats colour-string
parsing, font parsing and the trigonometric library as out of scope):
`Math.cos`/`Math.sin` restricted to finite inputs, the `parse-color`
package, and `cssfontparser` composed with `.toString()` (`none` models
the exception the source catches and swallows). -/
structure JSEnv where
  cos : ℚ → ℚ
  sin : ℚ → ℚ
  parseColor : String → ParseColorResult
  parseFont : JSVal → Option String

/-- Render one character of a hex string, with JS `undefined` for an
out-of-range index (string indexing past the end). -/
def hexChar (o : Option Char) : String :=
  match o with
  | some c => String.mk [c]
  | none => "undefined"

/-- `parseCSSColor` from the source: an `rgba(…)` string when the parsed
alpha differs from 1, else the hex form collapsed to `#abc` shorthand
when each byte pair repeats a digit, else `undefined` (`none`). -/
def parseCSSColor (env : JSEnv) (value : String) : Option String :=
  let result := env.parseColor value
  let hexBranch : Option String :=
    match result.hex with
    | some hex =>
      let c := hex.data
      if c.get? 1 = c.get? 2 && c.get? 3 = c.get? 4 && c.get? 5 = c.get? 6 then
        some ("#" ++ hexChar (c.get? 1) ++ hexChar (c.get? 3) ++ hexChar (c.get? 5))
      else some hex
    | none => none
  match result.rgba with
  | some rgba =>
    if rgba.get? 3 ≠ some 1 then
      some ("rgba(" ++ String.intercalate ", " (rgba.map (fun q => (JSNum.fin q).toJSString)) ++ ")")
    else hexBranch
  | none => hexBranch

/-- The mock context instance.  One field per instance field of the
class; the per-attribute stacks hold arbitrary JS values because the
`save()` in the source can push `undefined` (its line-width line reads the
nonexistent `this.stackIndex`).  `transformStack` and `lineDashStack`
hold `JSVal.ref` pointers into `heap`, because the source shares those
arrays by reference (`save()` pushes the transform array itself;
`getLineDash()` returns the stored array itself). -/
structure Ctx where
  drawCalls : List CEvent
  events : List CEvent
  path : List CEvent
  directionStack : List JSVal
  fillStyleStack : List JSVal
  filterStack : List JSVal
  fontStack : List JSVal
  globalAlphaStack : List JSVal
  globalCompositeOperationStack : List JSVal
  imageSmoothingEnabledStack : List JSVal
  imageSmoothingQualityStack : List JSVal
  lineCapStack : List JSVal
  lineDashOffsetStack : List JSVal
  lineDashStack : List JSVal
  lineJoinStack : List JSVal
  lineWidthStack : List JSVal
  miterLimitStack : List JSVal
  shadowBlurStack : List JSVal
  shadowColorStack : List JSVal
  shadowOffsetXStack : List JSVal
  shadowOffsetYStack : List JSVal
  stackIndex : Nat
  strokeStyleStack : List JSVal
  textAlignStack : List JSVal
  textBaselineStack : List JSVal
  transformStack : List JSVal
  heap : List (List JSNum)

/-- the identity matrix `[1, 0, 0, 1, 0, 0]`. -/
def identityMat : List JSNum :=
  [.fin 1, .fin 0, .fin 0, .fin 1, .fin 0, .fin 0]

/-- The freshly constructed context (the field initialisers of the
class).  Heap cell 0 is the initial transform array, cell 1 the initial
(empty) line dash array. -/
def initCtx : Ctx where
  drawCalls := []
  events := []
  path := [CEvent.mk "beginPath" identityMat []]
  directionStack := [.str "inherit"]
  fillStyleStack := [.str "#000"]
  filterStack := [.str "none"]
  fontStack := [.str "10px sans-serif"]
  globalAlphaStack := [.num (.fin 1)]
  globalCompositeOperationStack := [.str "source-over"]
  imageSmoothingEnabledStack := [.bool true]
  imageSmoothingQualityStack := [.str "low"]
  lineCapStack := [.str "butt"]
  lineDashOffsetStack := [.num (.fin 0)]
  lineDashStack := [.ref 1]
  lineJoinStack := [.str "miter"]
  lineWidthStack := [.num (.fin 1)]
  miterLimitStack := [.num (.fin 10)]
  shadowBlurStack := [.num (.fin 0)]
  shadowColorStack := [.str "rgba(0, 0, 0, 0)"]
  shadowOffsetXStack := [.num (.fin 0)]
  shadowOffsetYStack := [.num (.fin 0)]
  stackIndex := 0
  strokeStyleStack := [.str "#000"]
  textAlignStack := [.str "start"]
  textBaselineStack := [.str "alphabetic"]
  transformStack := [.ref 0]
  heap := [identityMat, []]

/-- JS array read `stack[i]` (`undefined` past the end). -/
def stackGet (l : List JSVal) (i : Nat) : JSVal :=
  (l.get? i).getD .undefined

/-- Dereference a heap array pointer (only ever applied to valid `ref`s
in reachable states). -/
def Ctx.deref (c : Ctx) (v : JSVal) : List JSNum :=
  match v with
  | .ref r => (c.heap.get? r).getD []
  | _ => []

/-- `getTransformSlice(ctx)` from the source: a by-value copy of the
transform array of the current frame. -/
def getTransformSlice (c : Ctx) : List JSNum :=
  c.deref (stackGet c.transformStack c.stackIndex)

/-- The current line dash contents (by value). -/
def Ctx.currentDash (c : Ctx) : List JSNum :=
  c.deref (stackGet c.lineDashStack c.stackIndex)

/-- Overwrite the (shared) transform array of the current frame in the heap.
The source writes its six slots elementwise; the ops below compute every
new slot from the pre-call values, exactly as the read/write order in the source
does. -/
def Ctx.writeCurMatrix (c : Ctx) (m : List JSNum) : Ctx :=
  match stackGet c.transformStack c.stackIndex with
  | .ref r => { c with heap := c.heap.set r m }
  | _ => c

/-- A caller mutating a heap array object it holds a reference to
(used to observe that `getLineDash` hands out the live array). -/
def Ctx.writeArr (c : Ctx) (r : Nat) (m : List JSNum) : Ctx :=
  { c with heap := c.heap.set r m }

/-- `this._events.push(event)`. -/
def Ctx.pushEvent (c : Ctx) (e : CEvent) : Ctx :=
  { c with events := c.events ++ [e] }

/-- `this._events.push(event); this._drawCalls.push(event)`. -/
def Ctx.pushDraw (c : Ctx) (e : CEvent) : Ctx :=
  { c with events := c.events ++ [e], drawCalls := c.drawCalls ++ [e] }

/-- `this._path.push(event); this._events.push(event)`. -/
def Ctx.pushPathEvent (c : Ctx) (e : CEvent) : Ctx :=
  { c with events := c.events ++ [e], path := c.path ++ [e] }

/-- read the matrix entry at an index (NaN for an out-of-range read, as
JS arithmetic on `undefined` would produce). -/
def mGet (m : List JSNum) (i : Nat) : JSNum :=
  (m.get? i).getD .nan

/-- JS positional argument access: `undefined` when absent. -/
def argN (args : List JSVal) (i : Nat) : JSVal :=
  (args.get? i).getD .undefined

/-- Strict JS equality of a value against a string literal. -/
def jsStrEq (v : JSVal) (s : String) : Bool :=
  match v with
  | .str t => t = s
  | _ => false

/-- Property read on a (possibly non-object) value; `undefined` when
absent, as in JS. -/
def objGet (v : JSVal) (k : String) : JSVal :=
  match v with
  | .obj fields => (fields.lookup k).getD .undefined
  | _ => .undefined

/-- Throw: the call ends with the given exception and the state at the
moment of the throw. -/
def Ctx.raise (c : Ctx) (e : Err) : Ctx × Option Err :=
  (c, some e)

/-- Normal return. -/
def Ctx.ok (c : Ctx) : Ctx × Option Err :=
  (c, none)

/-- `addHitRegion(options = {})` (source lines 94–114). -/
def Ctx.addHitRegion (args : List JSVal) (c : Ctx) : Ctx × Option Err :=
  let options : JSVal := match argN args 0 with | .undefined => .obj [] | v => v
  match options with
  | .null => c.raise (.typeError "Cannot destructure property \x27path\x27 of \x27options\x27 as it is null.")
  | _ =>
    let path := objGet options "path"
    let fillRule := objGet options "fillRule"
    let id := objGet options "id"
    let parentID := objGet options "parentID"
    let cursor := objGet options "cursor"
    let control := objGet options "control"
    let label := objGet options "label"
    let role := objGet options "role"
    if !jsTruthy path && !jsTruthy id then
      c.raise (.domException "ConstraintError" "Failed to execute \x27addHitRegion\x27 on \x27CanvasRenderingContext2D\x27: Both id and control are null.")
    else if jsTruthy fillRule && !jsStrEq fillRule "evenodd" && !jsStrEq fillRule "nonzero" then
      c.raise (.typeError ("Failed to execute \x27addHitRegion\x27 on \x27CanvasRenderingContext2D\x27: The provided value \x27" ++ jsToString fillRule ++ "\x27 is not a valid enum value of type CanvasFillRule."))
    else
      (c.pushEvent (.mk "addHitRegion" (getTransformSlice c)
        [("path", path), ("fillRule", fillRule), ("id", id), ("parentID", parentID),
         ("cursor", cursor), ("control", control), ("label", label), ("role", role)])).ok

/-- `arc(x, y, radius, startAngle, endAngle, anticlockwise = false)`
(source lines 116–138). -/
def Ctx.arc (args : List JSVal) (c : Ctx) : Ctx × Option Err :=
  if args.length < 5 then
    c.raise (.typeError ("Failed to execute \x27arc\x27 on \x27CanvasRenderingContext2D\x27: 5 arguments required, but only " ++ toString args.length ++ " present."))
  else
    let x := argN args 0
    let y := argN args 1
    let radius := argN args 2
    let startAngle := argN args 3
    let endAngle := argN args 4
    let anticlockwise : JSVal := match argN args 5 with | .undefined => .bool false | v => v
    let xR := jsToNumber x
    let yR := jsToNumber y
    let radiusR := jsToNumber radius
    let startAngleR := jsToNumber startAngle
    let endAngleR := jsToNumber endAngle
    let anticlockwiseR := jsTruthy anticlockwise
    if !((((xR.add yR).add radiusR).add startAngleR).add endAngleR).isFinite then c.ok
    else if (jsToNumber radius).lt (.fin 0) then
      c.raise (.domException "IndexSizeError" ("Failed to execute \x27arc\x27 on \x27CanvasRenderingContext2D\x27: The radius provided (" ++ jsToString radius ++ ") is negative."))
    else
      (c.pushPathEvent (.mk "arc" (getTransformSlice c)
        [("x", .num xR), ("y", .num yR), ("radius", .num radiusR),
         ("startAngle", .num startAngleR), ("endAngle", .num endAngleR),
         ("anticlockwise", .bool anticlockwiseR)])).ok

/-- `arcTo(cpx1, cpy1, cpx2, cpy2, radius)` (source lines 140–159; note
the *arity* failure is a `DOMException` and the negative radius a
`TypeError`, the reverse of `arc`). -/
def Ctx.arcTo (args : List JSVal) (c : Ctx) : Ctx × Option Err :=
  if args.length < 5 then
    c.raise (.domException "IndexSizeError" ("Failed to execute \x27arcTo\x27 on \x27CanvasRenderingContext2D\x27: 5 arguments required, but only " ++ toString args.length ++ " present."))
  else
    let cpx1R := jsToNumber (argN args 0)
    let cpy1R := jsToNumber (argN args 1)
    let cpx2R := jsToNumber (argN args 2)
    let cpy2R := jsToNumber (argN args 3)
    let radiusR := jsToNumber (argN args 4)
    if !((((cpx1R.add cpx2R).add cpy1R).add cpy2R).add radiusR).isFinite then c.ok
    else if radiusR.lt (.fin 0) then
      c.raise (.typeError ("Failed to execute \x27arcTo\x27 on \x27CanvasRenderingContext2D\x27: The radius provided (" ++ jsToString (argN args 4) ++ ") is negative."))
    else
      (c.pushPathEvent (.mk "arcTo" (getTransformSlice c)
        [("cpx1", .num cpx1R), ("cpy1", .num cpy1R), ("cpx2", .num cpx2R),
         ("cpy2", .num cpy2R), ("radius", .num radiusR)])).ok

/-- `beginPath()` (source lines 161–169): truncates the path to the new
sentinel segment and records the event. -/
def Ctx.beginPath (c : Ctx) : Ctx × Option Err :=
  let e := CEvent.mk "beginPath" (getTransformSlice c) []
  ({ c with path := [e], events := c.events ++ [e] }, none)

/-- `bezierCurveTo(...)` (source lines 171–190; the event carries the
*raw* arguments, uncoerced, as written in the source). -/
def Ctx.bezierCurveTo (args : List JSVal) (c : Ctx) : Ctx × Option Err :=
  if args.length < 6 then
    c.raise (.typeError ("Failed to execute \x27bezierCurveTo\x27 on \x27CanvasRenderingContext2D\x27: 6 arguments required, but only " ++ toString args.length ++ " present."))
  else
    let cpx1R := jsToNumber (argN args 0)
    let cpy1R := jsToNumber (argN args 1)
    let cpx2R := jsToNumber (argN args 2)
    let cpy2R := jsToNumber (argN args 3)
    let xR := jsToNumber (argN args 4)
    let yR := jsToNumber (argN args 5)
    if !(((((cpx1R.add cpy1R).add cpx2R).add cpy2R).add xR).add yR).isFinite then c.ok
    else
      (c.pushPathEvent (.mk "bezierCurveTo" (getTransformSlice c)
        [("cpx1", argN args 0), ("cpy1", argN args 1), ("cpx2", argN args 2),
         ("cpy2", argN args 3), ("x", argN args 4), ("y", argN args 5)])).ok

/-- `clearHitRegions()` (source lines 196–203). -/
def Ctx.clearHitRegions (c : Ctx) : Ctx × Option Err :=
  (c.pushEvent (.mk "clearHitRegions" (getTransformSlice c) [])).ok

/-- `clearRect(x, y, width, height)` (source lines 205–226; the finite
short-circuit tests the *raw* sum `x + y + width + height`, before
coercion). -/
def Ctx.clearRect (args : List JSVal) (c : Ctx) : Ctx × Option Err :=
  if args.length < 4 then
    c.raise (.typeError ("Failed to execute \x27clearRect\x27 on \x27CanvasRenderingContext2D\x27: 4 arguments required, but only " ++ toString args.length ++ " present."))
  else
    let xR := jsToNumber (argN args 0)
    let yR := jsToNumber (argN args 1)
    let widthR := jsToNumber (argN args 2)
    let heightR := jsToNumber (argN args 3)
    if !jsIsFinite (jsValAdd (jsValAdd (jsValAdd (argN args 0) (argN args 1)) (argN args 2)) (argN args 3)) then c.ok
    else
      (c.pushDraw (.mk "clearRect" (getTransformSlice c)
        [("x", .num xR), ("y", .num yR), ("width", .num widthR), ("height", .num heightR)])).ok

/-- `clip(path, fillRule)` (source lines 228–253): records into the
path and the event log, not the draw-call log. -/
def Ctx.clip (args : List JSVal) (c : Ctx) : Ctx × Option Err :=
  if args.length = 0 then
    (c.pushPathEvent (.mk "clip" (getTransformSlice c)
      [("path", .segs c.path), ("fillRule", .str "nonzero")])).ok
  else
    let fillRule0 := if args.length = 1 then .str "nonzero" else argN args 1
    match argN args 0 with
    | .path2D p =>
      let fillRule := jsToString fillRule0
      if fillRule ≠ "nonzero" && fillRule ≠ "evenodd" then
        c.raise (.typeError ("Failed to execute \x27clip\x27 on \x27CanvasRenderingContext2D\x27: The provided value \x27" ++ fillRule ++ "\x27 is not a valid enum value of type CanvasFillRule."))
      else
        (c.pushPathEvent (.mk "clip" (getTransformSlice c)
          [("path", .segs p), ("fillRule", .str fillRule)])).ok
    | v =>
      let fillRule := jsToString v
      if fillRule ≠ "nonzero" && fillRule ≠ "evenodd" then
        c.raise (.typeError ("Failed to execute \x27clip\x27 on \x27CanvasRenderingContext2D\x27: The provided value \x27" ++ fillRule ++ "\x27 is not a valid enum value of type CanvasFillRule."))
      else
        (c.pushPathEvent (.mk "clip" (getTransformSlice c)
          [("path", .segs c.path), ("fillRule", .str fillRule)])).ok

/-- `closePath()` (source lines 255–264). -/
def Ctx.closePath (c : Ctx) : Ctx × Option Err :=
  (c.pushPathEvent (.mk "closePath" (getTransformSlice c) [])).ok

/-- `createImageData(width, height)` (source lines 266–292; return value
not modelled). -/
def Ctx.createImageData (args : List JSVal) (c : Ctx) : Ctx × Option Err :=
  if args.length < 1 then
    c.raise (.typeError "Failed to execute \x27createImageData\x27 on \x27CanvasRenderingContext2D\x27: 1 argument required, but only 0 present.")
  else if args.length = 1 then
    match argN args 0 with
    | .imageData w h =>
      (c.pushEvent (.mk "createImageData" (getTransformSlice c)
        [("width", .num w), ("height", .num h)])).ok
    | _ => c.raise (.typeError "Failed to execute \x27createImageData\x27 on \x27CanvasRenderingContext2D\x27: parameter 1 is not of type \x27ImageData\x27.")
  else
    let width := (jsToNumber (argN args 0)).abs
    let height := (jsToNumber (argN args 1)).abs
    if !width.isFinite || width = .fin 0 then
      c.raise (.typeError "Failed to execute \x27createImageData\x27 on \x27CanvasRenderingContext2D\x27: The source width is 0.")
    else if !height.isFinite || height = .fin 0 then
      c.raise (.typeError "Failed to execute \x27createImageData\x27 on \x27CanvasRenderingContext2D\x27: The source height is 0.")
    else
      (c.pushEvent (.mk "createImageData" (getTransformSlice c)
        [("width", .num width), ("height", .num height)])).ok

/-- `createLinearGradient(x0, y0, x1, y1)` (source lines 294–312): a
non-finite coerced input *raises* here instead of no-opping. -/
def Ctx.createLinearGradient (args : List JSVal) (c : Ctx) : Ctx × Option Err :=
  if args.length < 4 then
    c.raise (.typeError ("Failed to execute \x27createLinearGradient\x27 on \x27CanvasRenderingContext2D\x27: 4 arguments required, but only " ++ toString args.length ++ " present."))
  else
    let x0R := jsToNumber (argN args 0)
    let y0R := jsToNumber (argN args 1)
    let x1R := jsToNumber (argN args 2)
    let y1R := jsToNumber (argN args 3)
    if !(((x0R.add y0R).add x1R).add y1R).isFinite then
      c.raise (.typeError "Failed to execute \x27createLinearGradient\x27 on \x27CanvasRenderingContext2D\x27: The provided double value is non-finite.")
    else
      (c.pushEvent (.mk "createLinearGradient" (getTransformSlice c)
        [("x0", .num x0R), ("y0", .num y0R), ("x1", .num x1R), ("y1", .num y1R)])).ok

/-- `createPattern(image, type)` (source lines 314–347). -/
def Ctx.createPattern (args : List JSVal) (c : Ctx) : Ctx × Option Err :=
  if args.length = 1 then
    c.raise (.typeError "Failed to execute \x27createPattern\x27 on \x27CanvasRenderingContext2D\x27: 2 arguments required, but only 1 present.")
  else
    let image := argN args 0
    let type0 := argN args 1
    let type1 : JSVal := match type0 with
      | .null => .str "repeat"
      | .str "" => .str "repeat"
      | v => v
    if jsStrEq type1 "repeat" || jsStrEq type1 "repeat-x" || jsStrEq type1 "repeat-y" || jsStrEq type1 "no-repeat" then
      let e := CEvent.mk "createPattern" (getTransformSlice c) [("image", image), ("type", type1)]
      match image with
      | .image .imageBitmap _ _ closed =>
        if closed then
          c.raise (.domException "InvalidStateError" "Failed to execute \x27createPattern\x27 on \x27CanvasRenderingContext2D\x27: The image source is detached.")
        else (c.pushEvent e).ok
      | .image _ _ _ _ => (c.pushEvent e).ok
      | _ => c.raise (.typeError "Failed to execute \x27createPattern\x27 on \x27CanvasRenderingContext2D\x27: The provided value is not of type \x27(CSSImageValue or HTMLImageElement or SVGImageElement or HTMLVideoElement or HTMLCanvasElement or ImageBitmap or OffscreenCanvas)\x27")
    else
      c.raise (.typeError ("Failed to execute \x27createPattern\x27 on \x27CanvasRenderingContext2D\x27: The provided type (\x27" ++ jsToString type1 ++ "\x27) is not one of \x27repeat\x27, \x27no-repeat\x27, \x27repeat-x\x27, or \x27repeat-y\x27."))

/-- `createRadialGradient(x0, y0, r0, x1, y1, r1)` (source lines
349–374). -/
def Ctx.createRadialGradient (args : List JSVal) (c : Ctx) : Ctx × Option Err :=
  if args.length < 6 then
    c.raise (.typeError ("Failed to execute \x27createRadialGradient\x27 on \x27CanvasRenderingContext2D\x27: 6 arguments required, but only " ++ toString args.length ++ " present."))
  else
    let x0R := jsToNumber (argN args 0)
    let y0R := jsToNumber (argN args 1)
    let r0R := jsToNumber (argN args 2)
    let x1R := jsToNumber (argN args 3)
    let y1R := jsToNumber (argN args 4)
    let r1R := jsToNumber (argN args 5)
    if !(((((x0R.add y0R).add r0R).add x1R).add y1R).add r1R).isFinite then
      c.raise (.typeError "Failed to execute \x27createRadialGradient\x27 on \x27CanvasRenderingContext2D\x27: The provided double value is non-finite.")
    else if r0R.lt (.fin 0) then
      c.raise (.domException "IndexSizeError" "Failed to execute \x27createRadialGradient\x27 on \x27CanvasRenderingContext2D\x27: The r0 provided is less than 0.")
    else if r1R.lt (.fin 0) then
      c.raise (.domException "IndexSizeError" "Failed to execute \x27createRadialGradient\x27 on \x27CanvasRenderingContext2D\x27: The r1 provided is less than 0.")
    else
      (c.pushEvent (.mk "createRadialGradient" (getTransformSlice c)
        [("x0", .num x0R), ("y0", .num y0R), ("r0", .num r0R),
         ("x1", .num x1R), ("y1", .num y1R), ("r1", .num r1R)])).ok

/-- Is the value a `Path2D` instance? -/
def isPath2D : JSVal → Bool
  | .path2D _ => true
  | _ => false

/-- `set currentTransform(value)` (source lines 376–396): writes the six
slots of the current (shared) transform array when given a `DOMMatrix`,
silently ignores anything else; no finiteness check. -/
def Ctx.setCurrentTransform (value : JSVal) (c : Ctx) : Ctx × Option Err :=
  match value with
  | .domMatrix a b c2 d e f =>
    let c' := c.writeCurMatrix [a, b, c2, d, e, f]
    (c'.pushEvent (.mk "currentTransform" (getTransformSlice c')
      [("a", .num a), ("b", .num b), ("c", .num c2), ("d", .num d), ("e", .num e), ("f", .num f)])).ok
  | _ => c.ok

/-- `set direction(value)` (source lines 402–412). -/
def Ctx.setDirection (value : JSVal) (c : Ctx) : Ctx × Option Err :=
  if jsStrEq value "rtl" || jsStrEq value "ltr" || jsStrEq value "inherit" then
    let c' := { c with directionStack := c.directionStack.set c.stackIndex value }
    (c'.pushEvent (.mk "direction" (getTransformSlice c') [("value", value)])).ok
  else c.ok

/-- `drawFocusIfNeeded(path, element)` (source lines 418–434). -/
def Ctx.drawFocusIfNeeded (args : List JSVal) (c : Ctx) : Ctx × Option Err :=
  if args.length = 0 then
    c.raise (.typeError "Failed to execute \x27drawFocusIfNeeded\x27 on \x27CanvasRenderingContext2D\x27: 1 argument required, but only 0 present.")
  else if args.length = 2 && !isPath2D (argN args 0) then
    c.raise (.typeError "Failed to execute \x27drawFocusIfNeeded\x27 on \x27CanvasRenderingContext2D\x27: parameter 1 is not of type \x27Path2D\x27.")
  else
    let path : JSVal := if args.length = 1 then .null else argN args 0
    let element : JSVal := if args.length = 1 then argN args 0 else argN args 1
    match element with
    | .elem =>
      let pathProp : JSVal := match path with
        | .path2D p => .segs p
        | _ => .null
      (c.pushEvent (.mk "drawFocusIfNeeded" (getTransformSlice c)
        [("path", pathProp), ("element", element)])).ok
    | _ => c.raise (.typeError ("Failed to execute \x27drawFocusIfNeeded\x27 on \x27CanvasRenderingContext2D\x27: parameter " ++ toString args.length ++ " is not of type \x27Element\x27."))

/-- `drawImage(...)` with its 3/5/9-argument overloads (source lines
436–506; the arity message hardcodes "4 arguments provided", and the
9-argument finite check uses the *raw* argument sum, both as written). -/
def Ctx.drawImage (args : List JSVal) (c : Ctx) : Ctx × Option Err :=
  if args.length < 3 then
    c.raise (.typeError ("Failed to execute \x27drawImage\x27 on \x27CanvasRenderingContext2D\x27: 3 arguments required, but only " ++ toString args.length ++ " present."))
  else if args.length = 4 || (args.length > 5 && args.length < 9) then
    c.raise (.typeError "Failed to execute \x27drawImage\x27 on \x27CanvasRenderingContext2D\x27: Valid arities are: [3, 5, 9], but 4 arguments provided.")
  else
    match argN args 0 with
    | .image kind w h closed =>
      if kind = .imageBitmap && closed then
        c.raise (.domException "InvalidStateError" "DOMException: Failed to execute \x27drawImage\x27 on \x27CanvasRenderingContext2D\x27: The image source is detached.")
      else
        let img := argN args 0
        let sxR := jsToNumber (argN args 1)
        let syR := jsToNumber (argN args 2)
        let sWidthR := jsToNumber (argN args 3)
        let sHeightR := jsToNumber (argN args 4)
        let dxR := jsToNumber (argN args 5)
        let dyR := jsToNumber (argN args 6)
        let dWidthR := jsToNumber (argN args 7)
        let dHeightR := jsToNumber (argN args 8)
        if args.length = 3 then
          if !(sxR.add syR).isFinite then c.ok
          else
            (c.pushDraw (.mk "drawImage" (getTransformSlice c)
              [("img", img), ("sx", .num (.fin 0)), ("sy", .num (.fin 0)),
               ("sWidth", .num w), ("sHeight", .num h), ("dx", .num sxR), ("dy", .num syR),
               ("dWidth", .num w), ("dHeight", .num h)])).ok
        else if args.length = 5 then
          if !(((sxR.add syR).add sWidthR).add sHeightR).isFinite then c.ok
          else
            (c.pushDraw (.mk "drawImage" (getTransformSlice c)
              [("img", img), ("sx", .num (.fin 0)), ("sy", .num (.fin 0)),
               ("sWidth", .num w), ("sHeight", .num h), ("dx", .num sxR), ("dy", .num syR),
               ("dWidth", .num w), ("dHeight", .num h)])).ok
        else
          if !jsIsFinite (jsValAdd (jsValAdd (jsValAdd (jsValAdd (jsValAdd (jsValAdd (jsValAdd (argN args 1) (argN args 2)) (argN args 3)) (argN args 4)) (argN args 5)) (argN args 6)) (argN args 7)) (argN args 8)) then c.ok
          else
            (c.pushDraw (.mk "drawImage" (getTransformSlice c)
              [("img", img), ("sx", .num sxR), ("sy", .num syR),
               ("sWidth", .num sWidthR), ("sHeight", .num sHeightR), ("dx", .num dxR), ("dy", .num dyR),
               ("dWidth", .num dWidthR), ("dHeight", .num dHeightR)])).ok
    | _ => c.raise (.typeError "Failed to execute \x27drawImage\x27 on \x27CanvasRenderingContext2D\x27: The provided value is not of type \x27(CSSImageValue or HTMLImageElement or SVGImageElement or HTMLVideoElement or HTMLCanvasElement or ImageBitmap or OffscreenCanvas)\x27")

/-- `ellipse(x, y, radiusX, radiusY, rotation, startAngle, endAngle,
anticlockwise = false)` (source lines 508–538; the arity message says
"6 arguments required" while the check demands 7, as written). -/
def Ctx.ellipse (args : List JSVal) (c : Ctx) : Ctx × Option Err :=
  if args.length < 7 then
    c.raise (.typeError ("Failed to execute \x27ellipse\x27 on \x27CanvasRenderingContext2D\x27: 6 arguments required, but only " ++ toString args.length ++ " present."))
  else
    let anticlockwise : JSVal := match argN args 7 with | .undefined => .bool false | v => v
    let xR := jsToNumber (argN args 0)
    let yR := jsToNumber (argN args 1)
    let radiusXR := jsToNumber (argN args 2)
    let radiusYR := jsToNumber (argN args 3)
    let rotationR := jsToNumber (argN args 4)
    let startAngleR := jsToNumber (argN args 5)
    let endAngleR := jsToNumber (argN args 6)
    let anticlockwiseR := jsTruthy anticlockwise
    if !((((((xR.add yR).add radiusXR).add radiusYR).add rotationR).add startAngleR).add endAngleR).isFinite then c.ok
    else if (jsToNumber (argN args 2)).lt (.fin 0) then
      c.raise (.domException "IndexSizeError" ("Failed to execute \x27ellipse\x27 on \x27CanvasRenderingContext2D\x27: The major-axis radius provided (" ++ jsToString (argN args 2) ++ ") is negative."))
    else if (jsToNumber (argN args 3)).lt (.fin 0) then
      c.raise (.domException "IndexSizeError" ("Failed to execute \x27ellipse\x27 on \x27CanvasRenderingContext2D\x27: The minor-axis radius provided (" ++ jsToString (argN args 3) ++ ") is negative."))
    else
      (c.pushPathEvent (.mk "ellipse" (getTransformSlice c)
        [("x", .num xR), ("y", .num yR), ("radiusX", .num radiusXR), ("radiusY", .num radiusYR),
         ("rotation", .num rotationR), ("startAngle", .num startAngleR),
         ("endAngle", .num endAngleR), ("anticlockwise", .bool anticlockwiseR)])).ok

/-- `fill(path, fillRule)` (source lines 540–565; its invalid-enum
messages say "clip", as written). -/
def Ctx.fill (args : List JSVal) (c : Ctx) : Ctx × Option Err :=
  if args.length = 0 then
    (c.pushDraw (.mk "fill" (getTransformSlice c)
      [("path", .segs c.path), ("fillRule", .str "nonzero")])).ok
  else
    let fillRule0 : JSVal := if args.length = 1 then .str "nonzero" else argN args 1
    match argN args 0 with
    | .path2D p =>
      let fillRule := jsToString fillRule0
      if fillRule ≠ "nonzero" && fillRule ≠ "evenodd" then
        c.raise (.typeError ("Failed to execute \x27clip\x27 on \x27CanvasRenderingContext2D\x27: The provided value \x27" ++ fillRule ++ "\x27 is not a valid enum value of type CanvasFillRule."))
      else
        (c.pushDraw (.mk "fill" (getTransformSlice c)
          [("path", .segs p), ("fillRule", .str fillRule)])).ok
    | v =>
      let fillRule := jsToString v
      if fillRule ≠ "nonzero" && fillRule ≠ "evenodd" then
        c.raise (.typeError ("Failed to execute \x27clip\x27 on \x27CanvasRenderingContext2D\x27: The provided value \x27" ++ fillRule ++ "\x27 is not a valid enum value of type CanvasFillRule."))
      else
        (c.pushDraw (.mk "fill" (getTransformSlice c)
          [("path", .segs c.path), ("fillRule", .str fillRule)])).ok

/-- `fillRect(x, y, width, height)` (source lines 567–588; the finite
short-circuit tests the *raw* sum, before coercion). -/
def Ctx.fillRect (args : List JSVal) (c : Ctx) : Ctx × Option Err :=
  if args.length < 4 then
    c.raise (.typeError ("Failed to execute \x27fillRect\x27 on \x27CanvasRenderingContext2D\x27: 4 arguments required, but only " ++ toString args.length ++ " present."))
  else
    let xR := jsToNumber (argN args 0)
    let yR := jsToNumber (argN args 1)
    let widthR := jsToNumber (argN args 2)
    let heightR := jsToNumber (argN args 3)
    if !jsIsFinite (jsValAdd (jsValAdd (jsValAdd (argN args 0) (argN args 1)) (argN args 2)) (argN args 3)) then c.ok
    else
      (c.pushDraw (.mk "fillRect" (getTransformSlice c)
        [("x", .num xR), ("y", .num yR), ("width", .num widthR), ("height", .num heightR)])).ok

/-- `set fillStyle(value)` (source lines 590–612). -/
def Ctx.setFillStyle (env : JSEnv) (value : JSVal) (c : Ctx) : Ctx × Option Err :=
  match value with
  | .str s =>
    match parseCSSColor env s with
    | some result =>
      let c' := { c with fillStyleStack := c.fillStyleStack.set c.stackIndex (.str result) }
      (c'.pushEvent (.mk "fillStyle" (getTransformSlice c') [("value", .str result)])).ok
    | none => c.ok
  | .gradient =>
    let c' := { c with fillStyleStack := c.fillStyleStack.set c.stackIndex value }
    (c'.pushEvent (.mk "fillStyle" (getTransformSlice c') [("value", value)])).ok
  | .pattern =>
    let c' := { c with fillStyleStack := c.fillStyleStack.set c.stackIndex value }
    (c'.pushEvent (.mk "fillStyle" (getTransformSlice c') [("value", value)])).ok
  | _ => c.ok

/-- `fillText(text, x, y, maxWidth)` (source lines 618–636). -/
def Ctx.fillText (args : List JSVal) (c : Ctx) : Ctx × Option Err :=
  if args.length < 3 then
    c.raise (.typeError ("Failed to execute \x27fillText\x27 on \x27CanvasRenderingContext2D\x27: 3 arguments required, but only " ++ toString args.length ++ " present."))
  else
    let textR := jsToString (argN args 0)
    let xR := jsToNumber (argN args 1)
    let yR := jsToNumber (argN args 2)
    let maxWidthR := jsToNumber (argN args 3)
    if args.length = 3 && !(xR.add yR).isFinite then c.ok
    else if args.length > 3 && !((xR.add yR).add maxWidthR).isFinite then c.ok
    else
      (c.pushDraw (.mk "fillText" (getTransformSlice c)
        [("text", .str textR), ("x", .num xR), ("y", .num yR),
         ("maxWidth", if args.length = 3 then .null else .num maxWidthR)])).ok

/-- `set filter(value)` (source lines 638–647): always stores and always
records an event. -/
def Ctx.setFilter (value : JSVal) (c : Ctx) : Ctx × Option Err :=
  let value1 : JSVal := match value with | .str "" => .str "none" | v => v
  let stored : JSVal := match value1 with | .str s => .str s | _ => .str "none"
  let c' := { c with filterStack := c.filterStack.set c.stackIndex stored }
  (c'.pushEvent (.mk "filter" (getTransformSlice c') [("value", stored)])).ok

/-- `set font(value)` (source lines 653–666): the external parser's
exception is caught and swallowed (`none`). -/
def Ctx.setFont (env : JSEnv) (value : JSVal) (c : Ctx) : Ctx × Option Err :=
  match env.parseFont value with
  | some s =>
    let c' := { c with fontStack := c.fontStack.set c.stackIndex (.str s) }
    (c'.pushEvent (.mk "font" (getTransformSlice c') [("value", .str s)])).ok
  | none => c.ok

/-- `getImageData()` (source lines 672–674): returns a fresh ImageData,
touches no state. -/
def Ctx.getImageData (c : Ctx) : Ctx × Option Err :=
  c.ok

/-- `getLineDash()` (source lines 676–678): returns the stored line dash
array itself — the live `ref`, not a copy. -/
def Ctx.getLineDashRet (c : Ctx) : JSVal :=
  stackGet c.lineDashStack c.stackIndex

/-- `getTransform()` (source lines 680–682): returns a fresh DOMMatrix,
touches no state. -/
def Ctx.getTransform (c : Ctx) : Ctx × Option Err :=
  c.ok

/-- `set globalAlpha(value)` (source lines 684–696). -/
def Ctx.setGlobalAlpha (value : JSVal) (c : Ctx) : Ctx × Option Err :=
  let v := jsToNumber value
  if !v.isFinite then c.ok
  else if v.lt (.fin 0) then c.ok
  else if (JSNum.fin 1).lt v then c.ok
  else
    let c' := { c with globalAlphaStack := c.globalAlphaStack.set c.stackIndex (.num v) }
    (c'.pushEvent (.mk "globalAlpha" (getTransformSlice c') [("value", .num v)])).ok

/-- the 26 valid composite operations (source line 29). -/
def compositeOperations : List String :=
  ["source-over", "source-in", "source-out", "source-atop", "destination-over",
   "destination-in", "destination-out", "destination-atop", "lighter", "copy", "xor",
   "multiply", "screen", "overlay", "darken", "lighten", "color-dodge", "color-burn",
   "hard-light", "soft-light", "difference", "exclusion", "hue", "saturation", "color",
   "luminosity"]

/-- `set globalCompositeOperation(value)` (source lines 702–712). -/
def Ctx.setGlobalCompositeOperation (value : JSVal) (c : Ctx) : Ctx × Option Err :=
  match value with
  | .str s =>
    if compositeOperations.contains s then
      let c' := { c with globalCompositeOperationStack := c.globalCompositeOperationStack.set c.stackIndex (.str s) }
      (c'.pushEvent (.mk "globalCompositeOperation" (getTransformSlice c') [("value", .str s)])).ok
    else c.ok
  | _ => c.ok

/-- `set imageSmoothingEnabled(value)` (source lines 718–726): always
stores the boolean coercion and always records an event. -/
def Ctx.setImageSmoothingEnabled (value : JSVal) (c : Ctx) : Ctx × Option Err :=
  let b := jsTruthy value
  let c' := { c with imageSmoothingEnabledStack := c.imageSmoothingEnabledStack.set c.stackIndex (.bool b) }
  (c'.pushEvent (.mk "imageSmoothingEnabled" (getTransformSlice c') [("value", .bool b)])).ok

/-- `set imageSmoothingQuality(value)` (source lines 732–742). -/
def Ctx.setImageSmoothingQuality (value : JSVal) (c : Ctx) : Ctx × Option Err :=
  if jsStrEq value "high" || jsStrEq value "medium" || jsStrEq value "low" then
    let c' := { c with imageSmoothingQualityStack := c.imageSmoothingQualityStack.set c.stackIndex value }
    (c'.pushEvent (.mk "imageSmoothingQuality" (getTransformSlice c') [("value", value)])).ok
  else c.ok

/-- `isPointInPath(path, x, y, fillRule = 'nonzero')` with its overload
juggling (source lines 748–769; boolean return not modelled). -/
def Ctx.isPointInPath (args : List JSVal) (c : Ctx) : Ctx × Option Err :=
  if args.length < 2 then
    c.raise (.typeError ("Failed to execute \x27isPointInPath\x27 on \x27CanvasRenderingContext2D\x27: 2 arguments required, but only " ++ toString args.length ++ " present."))
  else
    let fillRule0 : JSVal := match argN args 3 with | .undefined => .str "nonzero" | v => v
    let path0 := argN args 0
    let x : JSVal := match path0 with | .path2D _ => argN args 1 | _ => path0
    let y : JSVal := match path0 with | .path2D _ => argN args 2 | _ => argN args 1
    let fillRule : JSVal := match path0 with
      | .path2D _ => fillRule0
      | _ => if args.length > 2 then argN args 2 else fillRule0
    if !jsStrEq fillRule "nonzero" && !jsStrEq fillRule "evenodd" then
      c.raise (.typeError ("Failed to execute \x27isPointInPath\x27 on \x27CanvasRenderingContext2D\x27: The provided value \x27" ++ jsToString fillRule ++ "\x27 is not a valid enum value of type CanvasFillRule."))
    else
      let pathProp : JSVal := match path0 with | .path2D p => .segs p | _ => .segs c.path
      (c.pushEvent (.mk "isPointInPath" (getTransformSlice c)
        [("x", .num (jsToNumber x)), ("y", .num (jsToNumber y)),
         ("fillRule", fillRule), ("path", pathProp)])).ok

/-- `isPointInStroke(path, x, y)` (source lines 771–786; its event type
tag is "isPointInPath", as written). -/
def Ctx.isPointInStroke (args : List JSVal) (c : Ctx) : Ctx × Option Err :=
  if args.length < 2 then
    c.raise (.typeError ("Failed to execute \x27isPointInStroke\x27 on \x27CanvasRenderingContext2D\x27: 2 arguments required, but only " ++ toString args.length ++ " present."))
  else
    let path0 := argN args 0
    let x : JSVal := match path0 with | .path2D _ => argN args 1 | _ => path0
    let y : JSVal := match path0 with | .path2D _ => argN args 2 | _ => argN args 1
    let pathProp : JSVal := match path0 with | .path2D p => .segs p | _ => .segs c.path
    (c.pushEvent (.mk "isPointInPath" (getTransformSlice c)
      [("x", .num (jsToNumber x)), ("y", .num (jsToNumber y)), ("path", pathProp)])).ok

/-- `set lineCap(value)` (source lines 788–798). -/
def Ctx.setLineCap (value : JSVal) (c : Ctx) : Ctx × Option Err :=
  if jsStrEq value "butt" || jsStrEq value "round" || jsStrEq value "square" then
    let c' := { c with lineCapStack := c.lineCapStack.set c.stackIndex value }
    (c'.pushEvent (.mk "lineCap" (getTransformSlice c') [("value", value)])).ok
  else c.ok

/-- `set lineDashOffset(value)` (source lines 804–816; the event carries
the *raw* value, the stack the coerced one, as written). -/
def Ctx.setLineDashOffset (value : JSVal) (c : Ctx) : Ctx × Option Err :=
  let result := jsToNumber value
  if result.isFinite then
    let c' := { c with lineDashOffsetStack := c.lineDashOffsetStack.set c.stackIndex (.num result) }
    (c'.pushEvent (.mk "lineDashOffset" (getTransformSlice c') [("value", value)])).ok
  else c.ok

/-- `set lineJoin(value)` (source lines 822–832). -/
def Ctx.setLineJoin (value : JSVal) (c : Ctx) : Ctx × Option Err :=
  if jsStrEq value "round" || jsStrEq value "bevel" || jsStrEq value "miter" then
    let c' := { c with lineJoinStack := c.lineJoinStack.set c.stackIndex value }
    (c'.pushEvent (.mk "lineJoin" (getTransformSlice c') [("value", value)])).ok
  else c.ok

/-- `lineTo(x, y)` (source lines 838–851; this one checks the *coerced*
sum). -/
def Ctx.lineTo (args : List JSVal) (c : Ctx) : Ctx × Option Err :=
  if args.length < 2 then
    c.raise (.typeError ("Failed to execute \x27lineTo\x27 on \x27CanvasRenderingContext2D\x27: 2 arguments required, but only " ++ toString args.length ++ " present."))
  else
    let xR := jsToNumber (argN args 0)
    let yR := jsToNumber (argN args 1)
    if !(xR.add yR).isFinite then c.ok
    else
      (c.pushPathEvent (.mk "lineTo" (getTransformSlice c)
        [("x", .num xR), ("y", .num yR)])).ok

/-- `set lineWidth(value)` (source lines 853–865). -/
def Ctx.setLineWidth (value : JSVal) (c : Ctx) : Ctx × Option Err :=
  let result := jsToNumber value
  if result.isFinite && (JSNum.fin 0).lt result then
    let c' := { c with lineWidthStack := c.lineWidthStack.set c.stackIndex (.num result) }
    (c'.pushEvent (.mk "lineWidth" (getTransformSlice c') [("value", .num result)])).ok
  else c.ok

/-- `measureText(text)` (source lines 871–882; TextMetrics return not
modelled). -/
def Ctx.measureText (args : List JSVal) (c : Ctx) : Ctx × Option Err :=
  if args.length < 1 then
    c.raise (.typeError "Failed to execute \x27measureText\x27 on \x27CanvasRenderingContext2D\x27: 1 argument required, but only 0 present.")
  else
    let t1 : JSVal := match argN args 0 with
      | .undefined => .str ""
      | .null => .str ""
      | v => v
    (c.pushEvent (.mk "measureText" (getTransformSlice c)
      [("text", .str (jsToString t1))])).ok

/-- `set miterLimit(value)` (source lines 884–896): stores into the
miter-limit stack but records an event whose type tag is "lineWidth",
as written. -/
def Ctx.setMiterLimit (value : JSVal) (c : Ctx) : Ctx × Option Err :=
  let result := jsToNumber value
  if result.isFinite && (JSNum.fin 0).lt result then
    let c' := { c with miterLimitStack := c.miterLimitStack.set c.stackIndex (.num result) }
    (c'.pushEvent (.mk "lineWidth" (getTransformSlice c') [("value", .num result)])).ok
  else c.ok

/-- `moveTo(x, y)` (source lines 902–916; the finite short-circuit tests
the *raw* sum `x + y`, before coercion). -/
def Ctx.moveTo (args : List JSVal) (c : Ctx) : Ctx × Option Err :=
  if args.length < 2 then
    c.raise (.typeError ("Failed to execute \x27moveTo\x27 on \x27CanvasRenderingContext2D\x27: 2 arguments required, but only " ++ toString args.length ++ " present."))
  else
    let xR := jsToNumber (argN args 0)
    let yR := jsToNumber (argN args 1)
    if !jsIsFinite (jsValAdd (argN args 0) (argN args 1)) then c.ok
    else
      (c.pushPathEvent (.mk "moveTo" (getTransformSlice c)
        [("x", .num xR), ("y", .num yR)])).ok

/-- JS unary minus on numbers. -/
def JSNum.neg : JSNum → JSNum
  | .fin q => .fin (-q)
  | .nan => .nan
  | .inf p => .inf (!p)

/-- JS subtraction (`a - b` is `a + (-b)` exactly, in IEEE and here). -/
def JSNum.sub (a b : JSNum) : JSNum :=
  a.add b.neg

/-- `putImageData(...)` (source lines 918–947). -/
def Ctx.putImageData (args : List JSVal) (c : Ctx) : Ctx × Option Err :=
  if args.length < 3 then
    c.raise (.typeError ("Failed to execute \x27putImageData\x27 on \x27CanvasRenderingContext2D\x27: 3 arguments required, but only " ++ toString args.length ++ " present."))
  else if args.length > 3 && args.length < 7 then
    c.raise (.typeError ("Failed to execute \x27putImageData\x27 on \x27CanvasRenderingContext2D\x27: Valid arities are: [3, 7], but " ++ toString args.length ++ " arguments provided."))
  else
    match argN args 0 with
    | .imageData _ _ =>
      let xR := jsToNumber (argN args 1)
      let yR := jsToNumber (argN args 2)
      let dirtyXR := jsToNumber (argN args 3)
      let dirtyYR := jsToNumber (argN args 4)
      let dirtyWidthR := jsToNumber (argN args 5)
      let dirtyHeightR := jsToNumber (argN args 6)
      if args.length = 3 && !(xR.add yR).isFinite then c.ok
      else if args.length ≠ 3 && !(((((xR.add yR).add dirtyXR).add dirtyYR).add dirtyWidthR).add dirtyHeightR).isFinite then c.ok
      else
        (c.pushEvent (.mk "putImageData" (getTransformSlice c)
          [("x", .num xR), ("y", .num yR), ("dirtyX", .num dirtyXR), ("dirtyY", .num dirtyYR),
           ("dirtyWidth", .num dirtyWidthR), ("dirtyHeight", .num dirtyHeightR)])).ok
    | _ => c.raise (.typeError "Failed to execute \x27putImageData\x27 on \x27CanvasRenderingContext2D\x27: parameter 1 is not of type \x27ImageData\x27.")

/-- `quadraticCurveTo(cpx, cpy, x, y)` (source lines 949–967; records
into the event log only — the source does not push this segment onto the
path). -/
def Ctx.quadraticCurveTo (args : List JSVal) (c : Ctx) : Ctx × Option Err :=
  if args.length < 4 then
    c.raise (.typeError ("Failed to execute \x27quadraticCurveTo\x27 on \x27CanvasRenderingContext2D\x27: 4 arguments required, but only " ++ toString args.length ++ " present."))
  else
    let cpxR := jsToNumber (argN args 0)
    let cpyR := jsToNumber (argN args 1)
    let xR := jsToNumber (argN args 2)
    let yR := jsToNumber (argN args 3)
    if !(((cpxR.add cpyR).add xR).add yR).isFinite then c.ok
    else
      (c.pushEvent (.mk "quadraticCurveTo" (getTransformSlice c)
        [("cpx", .num cpxR), ("cpy", .num cpyR), ("x", .num xR), ("y", .num yR)])).ok

/-- `rect(x, y, width, height)` (source lines 969–988; the finite
short-circuit runs on the *raw* sum before any coercion). -/
def Ctx.rect (args : List JSVal) (c : Ctx) : Ctx × Option Err :=
  if args.length < 4 then
    c.raise (.typeError ("Failed to execute \x27rect\x27 on \x27CanvasRenderingContext2D\x27: 4 arguments required, but only " ++ toString args.length ++ " present."))
  else if !jsIsFinite (jsValAdd (jsValAdd (jsValAdd (argN args 0) (argN args 1)) (argN args 2)) (argN args 3)) then c.ok
  else
    let xR := jsToNumber (argN args 0)
    let yR := jsToNumber (argN args 1)
    let widthR := jsToNumber (argN args 2)
    let heightR := jsToNumber (argN args 3)
    (c.pushPathEvent (.mk "rect" (getTransformSlice c)
      [("x", .num xR), ("y", .num yR), ("width", .num widthR), ("height", .num heightR)])).ok

/-- `removeHitRegion(id)` (source lines 990–999). -/
def Ctx.removeHitRegion (args : List JSVal) (c : Ctx) : Ctx × Option Err :=
  if args.length < 1 then
    c.raise (.typeError ("Failed to execute \x27removeHitRegion\x27 on \x27CanvasRenderingContext2D\x27: 1 argument required, but only " ++ toString args.length ++ " present."))
  else
    (c.pushEvent (.mk "removeHitRegion" (getTransformSlice c) [("id", argN args 0)])).ok

/-- `resetTransform()` (source lines 1001–1020). -/
def Ctx.resetTransform (c : Ctx) : Ctx × Option Err :=
  let c' := c.writeCurMatrix identityMat
  (c'.pushEvent (.mk "resetTransform" (getTransformSlice c')
    [("a", .num (.fin 1)), ("b", .num (.fin 0)), ("c", .num (.fin 0)),
     ("d", .num (.fin 1)), ("e", .num (.fin 0)), ("f", .num (.fin 0))])).ok

/-- `restore()` (source lines 1022–1055): a silent no-op at depth 0,
otherwise pops every per-attribute stack, decrements the cursor, and
records a "restore" event. -/
def Ctx.restore (c : Ctx) : Ctx :=
  if c.stackIndex = 0 then c
  else
    let c' := { c with
      transformStack := c.transformStack.dropLast
      directionStack := c.directionStack.dropLast
      fillStyleStack := c.fillStyleStack.dropLast
      filterStack := c.filterStack.dropLast
      fontStack := c.fontStack.dropLast
      globalAlphaStack := c.globalAlphaStack.dropLast
      globalCompositeOperationStack := c.globalCompositeOperationStack.dropLast
      imageSmoothingEnabledStack := c.imageSmoothingEnabledStack.dropLast
      imageSmoothingQualityStack := c.imageSmoothingQualityStack.dropLast
      lineCapStack := c.lineCapStack.dropLast
      lineDashStack := c.lineDashStack.dropLast
      lineDashOffsetStack := c.lineDashOffsetStack.dropLast
      lineJoinStack := c.lineJoinStack.dropLast
      lineWidthStack := c.lineWidthStack.dropLast
      miterLimitStack := c.miterLimitStack.dropLast
      shadowBlurStack := c.shadowBlurStack.dropLast
      shadowColorStack := c.shadowColorStack.dropLast
      shadowOffsetXStack := c.shadowOffsetXStack.dropLast
      shadowOffsetYStack := c.shadowOffsetYStack.dropLast
      strokeStyleStack := c.strokeStyleStack.dropLast
      textAlignStack := c.textAlignStack.dropLast
      textBaselineStack := c.textBaselineStack.dropLast
      stackIndex := c.stackIndex - 1 }
    c'.pushEvent (.mk "restore" (getTransformSlice c') [])

/-- `rotate(angle)` (source lines 1057–1078): composes a rotation into
the slots 0–3 of the current (shared) transform array, using the
external `Math.cos`/`Math.sin`. -/
def Ctx.rotate (env : JSEnv) (args : List JSVal) (c : Ctx) : Ctx × Option Err :=
  if args.length < 1 then
    c.raise (.typeError "Failed to execute \x27rotate\x27 on \x27CanvasRenderingContext2D\x27: 1 argument required, but only 0 present.")
  else
    match jsToNumber (argN args 0) with
    | .fin angle =>
      let m := getTransformSlice c
      let a := mGet m 0
      let b := mGet m 1
      let c2 := mGet m 2
      let d := mGet m 3
      let cosv : JSNum := .fin (env.cos angle)
      let sinv : JSNum := .fin (env.sin angle)
      let c' := c.writeCurMatrix
        [(a.mul cosv).add (c2.mul sinv),
         (b.mul cosv).add (d.mul sinv),
         (c2.mul cosv).sub (a.mul sinv),
         (d.mul cosv).sub (b.mul sinv),
         mGet m 4, mGet m 5]
      (c'.pushEvent (.mk "rotate" (getTransformSlice c')
        [("angle", .num (.fin angle))])).ok
    | _ => c.ok

/-- `save()` (source lines 1080–1111): pushes the current value of every
per-attribute stack onto its top (the transform entry is pushed as the
same reference, so the new frame *aliases* the array of the old one), except
that the line-width line reads the nonexistent `this.stackIndex` and so
pushes `undefined`; then increments the cursor and records a "save"
event. -/
def Ctx.save (c : Ctx) : Ctx :=
  let c' := { c with
    transformStack := c.transformStack ++ [stackGet c.transformStack c.stackIndex]
    directionStack := c.directionStack ++ [stackGet c.directionStack c.stackIndex]
    fillStyleStack := c.fillStyleStack ++ [stackGet c.fillStyleStack c.stackIndex]
    filterStack := c.filterStack ++ [stackGet c.filterStack c.stackIndex]
    fontStack := c.fontStack ++ [stackGet c.fontStack c.stackIndex]
    globalAlphaStack := c.globalAlphaStack ++ [stackGet c.globalAlphaStack c.stackIndex]
    globalCompositeOperationStack := c.globalCompositeOperationStack ++ [stackGet c.globalCompositeOperationStack c.stackIndex]
    imageSmoothingEnabledStack := c.imageSmoothingEnabledStack ++ [stackGet c.imageSmoothingEnabledStack c.stackIndex]
    imageSmoothingQualityStack := c.imageSmoothingQualityStack ++ [stackGet c.imageSmoothingQualityStack c.stackIndex]
    lineCapStack := c.lineCapStack ++ [stackGet c.lineCapStack c.stackIndex]
    lineDashStack := c.lineDashStack ++ [stackGet c.lineDashStack c.stackIndex]
    lineDashOffsetStack := c.lineDashOffsetStack ++ [stackGet c.lineDashOffsetStack c.stackIndex]
    lineJoinStack := c.lineJoinStack ++ [stackGet c.lineJoinStack c.stackIndex]
    lineWidthStack := c.lineWidthStack ++ [JSVal.undefined]
    miterLimitStack := c.miterLimitStack ++ [stackGet c.miterLimitStack c.stackIndex]
    shadowBlurStack := c.shadowBlurStack ++ [stackGet c.shadowBlurStack c.stackIndex]
    shadowColorStack := c.shadowColorStack ++ [stackGet c.shadowColorStack c.stackIndex]
    shadowOffsetXStack := c.shadowOffsetXStack ++ [stackGet c.shadowOffsetXStack c.stackIndex]
    shadowOffsetYStack := c.shadowOffsetYStack ++ [stackGet c.shadowOffsetYStack c.stackIndex]
    strokeStyleStack := c.strokeStyleStack ++ [stackGet c.strokeStyleStack c.stackIndex]
    textAlignStack := c.textAlignStack ++ [stackGet c.textAlignStack c.stackIndex]
    textBaselineStack := c.textBaselineStack ++ [stackGet c.textBaselineStack c.stackIndex]
    stackIndex := c.stackIndex + 1 }
  c'.pushEvent (.mk "save" (getTransformSlice c') [])

/-- `scale(x, y)` (source lines 1113–1132). -/
def Ctx.scale (args : List JSVal) (c : Ctx) : Ctx × Option Err :=
  if args.length < 2 then
    c.raise (.typeError ("Failed to execute \x27scale\x27 on \x27CanvasRenderingContext2D\x27: 2 arguments required, but only " ++ toString args.length ++ " present."))
  else
    let xR := jsToNumber (argN args 0)
    let yR := jsToNumber (argN args 1)
    if xR.isFinite && yR.isFinite then
      let m := getTransformSlice c
      let c' := c.writeCurMatrix
        [(mGet m 0).mul xR, (mGet m 1).mul xR, (mGet m 2).mul yR, (mGet m 3).mul yR,
         mGet m 4, mGet m 5]
      (c'.pushEvent (.mk "scale" (getTransformSlice c')
        [("x", .num xR), ("y", .num yR)])).ok
    else c.ok

/-- `scrollPathIntoView(path)` (source lines 1134–1143). -/
def Ctx.scrollPathIntoView (args : List JSVal) (c : Ctx) : Ctx × Option Err :=
  let pathProp : JSVal :=
    if args.length > 0 then
      match argN args 0 with
      | .path2D p => .segs p
      | _ => .segs c.path
    else .segs c.path
  (c.pushEvent (.mk "scrollPathIntoView" (getTransformSlice c) [("path", pathProp)])).ok

/-- the element-validation loop of `setLineDash` (source lines
1151–1159): collects coerced elements while each is finite and
non-negative; `none` models the early `return`. -/
def collectDash : List JSVal → List JSNum → Option (List JSNum)
  | [], acc => some acc
  | v :: rest, acc =>
    match jsToNumber v with
    | .fin q => if 0 ≤ q then collectDash rest (acc ++ [.fin q]) else none
    | _ => none

/-- `setLineDash(lineDash)` (source lines 1145–1168): odd-length results
are concatenated with themselves; the stored array is a fresh heap cell;
the event holds a `.slice()` copy. -/
def Ctx.setLineDash (args : List JSVal) (c : Ctx) : Ctx × Option Err :=
  match argN args 0 with
  | .arr elems =>
    match collectDash elems [] with
    | none => c.ok
    | some result =>
      let result2 := if result.length % 2 = 1 then result ++ result else result
      let newRef := c.heap.length
      let c' := { c with
        heap := c.heap ++ [result2],
        lineDashStack := c.lineDashStack.set c.stackIndex (.ref newRef) }
      (c'.pushEvent (.mk "setLineDash" (getTransformSlice c')
        [("value", .arr (result2.map JSVal.num))])).ok
  | _ => c.raise (.typeError "Failed to execute \x27setLineDash\x27 on \x27CanvasRenderingContext2D\x27: The provided value cannot be converted to a sequence.")

/-- the shared tail of `setTransform` (source lines 1194–1213): coerced
six-tuple, finite short-circuit, wholesale overwrite, event. -/
def Ctx.setTransformWith (a b c2 d e f : JSNum) (c : Ctx) : Ctx × Option Err :=
  if !(((((a.add b).add c2).add d).add e).add f).isFinite then c.ok
  else
    let c' := c.writeCurMatrix [a, b, c2, d, e, f]
    (c'.pushEvent (.mk "setTransform" (getTransformSlice c')
      [("a", .num a), ("b", .num b), ("c", .num c2), ("d", .num d), ("e", .num e), ("f", .num f)])).ok

/-- `setTransform(...)` with its 0/1/6-argument overloads (source lines
1170–1214). -/
def Ctx.setTransform (args : List JSVal) (c : Ctx) : Ctx × Option Err :=
  if args.length = 0 then
    c.setTransformWith (.fin 1) (.fin 0) (.fin 0) (.fin 1) (.fin 0) (.fin 0)
  else if args.length = 1 then
    match argN args 0 with
    | .domMatrix a b c2 d e f => c.setTransformWith a b c2 d e f
    | v => c.raise (.typeError ("Failed to execute \x27setTransform\x27 on \x27CanvasRenderingContext2D\x27: parameter " ++ jsToString v ++ " (\x27transform\x27) is not an object."))
  else if args.length < 6 then
    c.raise (.typeError ("Failed to execute \x27setTransform\x27 on \x27CanvasRenderingContext2D\x27: Valid arities are: [0, 1, 6], but " ++ toString args.length ++ " arguments provided."))
  else
    c.setTransformWith (jsToNumber (argN args 0)) (jsToNumber (argN args 1)) (jsToNumber (argN args 2))
      (jsToNumber (argN args 3)) (jsToNumber (argN args 4)) (jsToNumber (argN args 5))

/-- `set shadowBlur(value)` (source lines 1216–1228). -/
def Ctx.setShadowBlur (value : JSVal) (c : Ctx) : Ctx × Option Err :=
  let result := jsToNumber value
  if result.isFinite && (JSNum.fin 0).lt result then
    let c' := { c with shadowBlurStack := c.shadowBlurStack.set c.stackIndex (.num result) }
    (c'.pushEvent (.mk "shadowBlur" (getTransformSlice c') [("value", .num result)])).ok
  else c.ok

/-- `set shadowColor(value)` (source lines 1234–1248). -/
def Ctx.setShadowColor (env : JSEnv) (value : JSVal) (c : Ctx) : Ctx × Option Err :=
  match value with
  | .str s =>
    match parseCSSColor env s with
    | some result =>
      let c' := { c with shadowColorStack := c.shadowColorStack.set c.stackIndex (.str result) }
      (c'.pushEvent (.mk "shadowColor" (getTransformSlice c') [("value", .str result)])).ok
    | none => c.ok
  | _ => c.ok

/-- `set shadowOffsetX(value)` (source lines 1254–1266). -/
def Ctx.setShadowOffsetX (value : JSVal) (c : Ctx) : Ctx × Option Err :=
  let result := jsToNumber value
  if result.isFinite then
    let c' := { c with shadowOffsetXStack := c.shadowOffsetXStack.set c.stackIndex (.num result) }
    (c'.pushEvent (.mk "shadowOffsetX" (getTransformSlice c') [("value", .num result)])).ok
  else c.ok

/-- `set shadowOffsetY(value)` (source lines 1272–1284): writes the
*X-offset* stack, as written in the source. -/
def Ctx.setShadowOffsetY (value : JSVal) (c : Ctx) : Ctx × Option Err :=
  let result := jsToNumber value
  if result.isFinite then
    let c' := { c with shadowOffsetXStack := c.shadowOffsetXStack.set c.stackIndex (.num result) }
    (c'.pushEvent (.mk "shadowOffsetY" (getTransformSlice c') [("value", .num result)])).ok
  else c.ok

/-- `stroke(path)` (source lines 1290–1305). -/
def Ctx.stroke (args : List JSVal) (c : Ctx) : Ctx × Option Err :=
  if args.length = 0 then
    (c.pushDraw (.mk "stroke" (getTransformSlice c) [("path", .segs c.path)])).ok
  else
    match argN args 0 with
    | .path2D p => (c.pushDraw (.mk "stroke" (getTransformSlice c) [("path", .segs p)])).ok
    | _ => c.raise (.typeError "Failed to execute \x27stroke\x27 on \x27CanvasRenderingContext2D\x27: parameter 1 is not of type \x27Path2D\x27.")

/-- `strokeRect(x, y, width, height)` (source lines 1307–1322; the
finite short-circuit tests the *raw* sum, before coercion). -/
def Ctx.strokeRect (args : List JSVal) (c : Ctx) : Ctx × Option Err :=
  if args.length < 4 then
    c.raise (.typeError ("Failed to execute \x27strokeRect\x27 on \x27CanvasRenderingContext2D\x27: 4 arguments required, but only " ++ toString args.length ++ " present."))
  else
    let xR := jsToNumber (argN args 0)
    let yR := jsToNumber (argN args 1)
    let widthR := jsToNumber (argN args 2)
    let heightR := jsToNumber (argN args 3)
    if !jsIsFinite (jsValAdd (jsValAdd (jsValAdd (.num xR) (.num yR)) (.num widthR)) (.num heightR)) then c.ok
    else
      (c.pushDraw (.mk "strokeRect" (getTransformSlice c)
        [("x", .num xR), ("y", .num yR), ("width", .num widthR), ("height", .num heightR)])).ok

/-- `set strokeStyle(value)` (source lines 1324–1346). -/
def Ctx.setStrokeStyle (env : JSEnv) (value : JSVal) (c : Ctx) : Ctx × Option Err :=
  match value with
  | .str s =>
    match parseCSSColor env s with
    | some result =>
      let c' := { c with strokeStyleStack := c.strokeStyleStack.set c.stackIndex (.str result) }
      (c'.pushEvent (.mk "strokeStyle" (getTransformSlice c') [("value", .str result)])).ok
    | none => c.ok
  | .gradient =>
    let c' := { c with strokeStyleStack := c.strokeStyleStack.set c.stackIndex value }
    (c'.pushEvent (.mk "strokeStyle" (getTransformSlice c') [("value", value)])).ok
  | .pattern =>
    let c' := { c with strokeStyleStack := c.strokeStyleStack.set c.stackIndex value }
    (c'.pushEvent (.mk "strokeStyle" (getTransformSlice c') [("value", value)])).ok
  | _ => c.ok

/-- `strokeText(text, x, y, maxWidth)` (source lines 1352–1370). -/
def Ctx.strokeText (args : List JSVal) (c : Ctx) : Ctx × Option Err :=
  if args.length < 3 then
    c.raise (.typeError ("Failed to execute \x27strokeText\x27 on \x27CanvasRenderingContext2D\x27: 3 arguments required, but only " ++ toString args.length ++ " present."))
  else
    let textR := jsToString (argN args 0)
    let xR := jsToNumber (argN args 1)
    let yR := jsToNumber (argN args 2)
    let maxWidthR := jsToNumber (argN args 3)
    if args.length = 3 && !(xR.add yR).isFinite then c.ok
    else if args.length > 3 && !((xR.add yR).add maxWidthR).isFinite then c.ok
    else
      (c.pushDraw (.mk "strokeText" (getTransformSlice c)
        [("text", .str textR), ("x", .num xR), ("y", .num yR),
         ("maxWidth", if args.length = 3 then .null else .num maxWidthR)])).ok

/-- `set textAlign(value)` (source lines 1372–1382). -/
def Ctx.setTextAlign (value : JSVal) (c : Ctx) : Ctx × Option Err :=
  if jsStrEq value "left" || jsStrEq value "right" || jsStrEq value "center" || jsStrEq value "start" || jsStrEq value "end" then
    let c' := { c with textAlignStack := c.textAlignStack.set c.stackIndex value }
    (c'.pushEvent (.mk "textAlign" (getTransformSlice c') [("value", value)])).ok
  else c.ok

/-- `set textBaseline(value)` (source lines 1388–1398). -/
def Ctx.setTextBaseline (value : JSVal) (c : Ctx) : Ctx × Option Err :=
  if jsStrEq value "top" || jsStrEq value "hanging" || jsStrEq value "middle" || jsStrEq value "alphabetic" || jsStrEq value "ideographic" || jsStrEq value "bottom" then
    let c' := { c with textBaselineStack := c.textBaselineStack.set c.stackIndex value }
    (c'.pushEvent (.mk "textBaseline" (getTransformSlice c') [("value", value)])).ok
  else c.ok

/-- `transform(a, b, c, d, e, f)` (source lines 1404–1435): right-
multiplies the given matrix onto the current one, slot by slot exactly
as the source computes them. -/
def Ctx.transform (args : List JSVal) (c : Ctx) : Ctx × Option Err :=
  if args.length < 6 then
    c.raise (.typeError ("Failed to execute \x27transform\x27 on \x27CanvasRenderingContext2D\x27: 6 arguments required, but only " ++ toString args.length ++ " present."))
  else
    let a := jsToNumber (argN args 0)
    let b := jsToNumber (argN args 1)
    let c2 := jsToNumber (argN args 2)
    let d := jsToNumber (argN args 3)
    let e := jsToNumber (argN args 4)
    let f := jsToNumber (argN args 5)
    if !(((((a.add b).add c2).add d).add e).add f).isFinite then c.ok
    else
      let m := getTransformSlice c
      let sa := mGet m 0
      let sb := mGet m 1
      let sc := mGet m 2
      let sd := mGet m 3
      let se := mGet m 4
      let sf := mGet m 5
      let c' := c.writeCurMatrix
        [(sa.mul a).add (sc.mul b),
         (sb.mul a).add (sd.mul b),
         (sa.mul c2).add (sc.mul d),
         (sb.mul c2).add (sd.mul d),
         ((sa.mul e).add (sc.mul f)).add se,
         ((sb.mul e).add (sd.mul f)).add sf]
      (c'.pushEvent (.mk "transform" (getTransformSlice c')
        [("a", .num a), ("b", .num b), ("c", .num c2), ("d", .num d), ("e", .num e), ("f", .num f)])).ok

/-- `translate(x, y)` (source lines 1437–1457). -/
def Ctx.translate (args : List JSVal) (c : Ctx) : Ctx × Option Err :=
  if args.length < 2 then
    c.raise (.typeError ("Failed to execute \x27translate\x27 on \x27CanvasRenderingContext2D\x27: 2 arguments required, but only " ++ toString args.length ++ " present."))
  else
    let xR := jsToNumber (argN args 0)
    let yR := jsToNumber (argN args 1)
    let m := getTransformSlice c
    let a := mGet m 0
    let b := mGet m 1
    let c2 := mGet m 2
    let d := mGet m 3
    if (xR.add yR).isFinite then
      let c' := c.writeCurMatrix
        [a, b, c2, d,
         (mGet m 4).add ((a.mul xR).add (c2.mul yR)),
         (mGet m 5).add ((b.mul xR).add (d.mul yR))]
      (c'.pushEvent (.mk "translate" (getTransformSlice c')
        [("x", .num xR), ("y", .num yR)])).ok
    else c.ok

/-- One public operation on the context: every method of the class and
every property setter, with its JS argument list. -/
inductive CanvasOp : Type where
  | addHitRegion (args : List JSVal)
  | arc (args : List JSVal)
  | arcTo (args : List JSVal)
  | beginPath
  | bezierCurveTo (args : List JSVal)
  | clearHitRegions
  | clearRect (args : List JSVal)
  | clip (args : List JSVal)
  | closePath
  | createImageData (args : List JSVal)
  | createLinearGradient (args : List JSVal)
  | createPattern (args : List JSVal)
  | createRadialGradient (args : List JSVal)
  | drawFocusIfNeeded (args : List JSVal)
  | drawImage (args : List JSVal)
  | ellipse (args : List JSVal)
  | fill (args : List JSVal)
  | fillRect (args : List JSVal)
  | fillText (args : List JSVal)
  | getImageData
  | getLineDash
  | getTransform
  | isPointInPath (args : List JSVal)
  | isPointInStroke (args : List JSVal)
  | lineTo (args : List JSVal)
  | measureText (args : List JSVal)
  | moveTo (args : List JSVal)
  | putImageData (args : List JSVal)
  | quadraticCurveTo (args : List JSVal)
  | rect (args : List JSVal)
  | removeHitRegion (args : List JSVal)
  | resetTransform
  | restore
  | rotate (args : List JSVal)
  | save
  | scale (args : List JSVal)
  | scrollPathIntoView (args : List JSVal)
  | setLineDash (args : List JSVal)
  | setTransform (args : List JSVal)
  | stroke (args : List JSVal)
  | strokeRect (args : List JSVal)
  | strokeText (args : List JSVal)
  | transform (args : List JSVal)
  | translate (args : List JSVal)
  | setCurrentTransform (v : JSVal)
  | setDirection (v : JSVal)
  | setFillStyle (v : JSVal)
  | setFilter (v : JSVal)
  | setFont (v : JSVal)
  | setGlobalAlpha (v : JSVal)
  | setGlobalCompositeOperation (v : JSVal)
  | setImageSmoothingEnabled (v : JSVal)
  | setImageSmoothingQuality (v : JSVal)
  | setLineCap (v : JSVal)
  | setLineDashOffset (v : JSVal)
  | setLineJoin (v : JSVal)
  | setLineWidth (v : JSVal)
  | setMiterLimit (v : JSVal)
  | setShadowBlur (v : JSVal)
  | setShadowColor (v : JSVal)
  | setShadowOffsetX (v : JSVal)
  | setShadowOffsetY (v : JSVal)
  | setStrokeStyle (v : JSVal)
  | setTextAlign (v : JSVal)
  | setTextBaseline (v : JSVal)

/-- Dispatch one public operation to its method body. -/
def runOp (env : JSEnv) (op : CanvasOp) (c : Ctx) : Ctx × Option Err :=
  match op with
  | .addHitRegion args => c.addHitRegion args
  | .arc args => c.arc args
  | .arcTo args => c.arcTo args
  | .beginPath => c.beginPath
  | .bezierCurveTo args => c.bezierCurveTo args
  | .clearHitRegions => c.clearHitRegions
  | .clearRect args => c.clearRect args
  | .clip args => c.clip args
  | .closePath => c.closePath
  | .createImageData args => c.createImageData args
  | .createLinearGradient args => c.createLinearGradient args
  | .createPattern args => c.createPattern args
  | .createRadialGradient args => c.createRadialGradient args
  | .drawFocusIfNeeded args => c.drawFocusIfNeeded args
  | .drawImage args => c.drawImage args
  | .ellipse args => c.ellipse args
  | .fill args => c.fill args
  | .fillRect args => c.fillRect args
  | .fillText args => c.fillText args
  | .getImageData => c.getImageData
  | .getLineDash => c.ok
  | .getTransform => c.getTransform
  | .isPointInPath args => c.isPointInPath args
  | .isPointInStroke args => c.isPointInStroke args
  | .lineTo args => c.lineTo args
  | .measureText args => c.measureText args
  | .moveTo args => c.moveTo args
  | .putImageData args => c.putImageData args
  | .quadraticCurveTo args => c.quadraticCurveTo args
  | .rect args => c.rect args
  | .removeHitRegion args => c.removeHitRegion args
  | .resetTransform => c.resetTransform
  | .restore => (c.restore, none)
  | .rotate args => c.rotate env args
  | .save => (c.save, none)
  | .scale args => c.scale args
  | .scrollPathIntoView args => c.scrollPathIntoView args
  | .setLineDash args => c.setLineDash args
  | .setTransform args => c.setTransform args
  | .stroke args => c.stroke args
  | .strokeRect args => c.strokeRect args
  | .strokeText args => c.strokeText args
  | .transform args => c.transform args
  | .translate args => c.translate args
  | .setCurrentTransform v => c.setCurrentTransform v
  | .setDirection v => c.setDirection v
  | .setFillStyle v => c.setFillStyle env v
  | .setFilter v => c.setFilter v
  | .setFont v => c.setFont env v
  | .setGlobalAlpha v => c.setGlobalAlpha v
  | .setGlobalCompositeOperation v => c.setGlobalCompositeOperation v
  | .setImageSmoothingEnabled v => c.setImageSmoothingEnabled v
  | .setImageSmoothingQuality v => c.setImageSmoothingQuality v
  | .setLineCap v => c.setLineCap v
  | .setLineDashOffset v => c.setLineDashOffset v
  | .setLineJoin v => c.setLineJoin v
  | .setLineWidth v => c.setLineWidth v
  | .setMiterLimit v => c.setMiterLimit v
  | .setShadowBlur v => c.setShadowBlur v
  | .setShadowColor v => c.setShadowColor env v
  | .setShadowOffsetX v => c.setShadowOffsetX v
  | .setShadowOffsetY v => c.setShadowOffsetY v
  | .setStrokeStyle v => c.setStrokeStyle env v
  | .setTextAlign v => c.setTextAlign v
  | .setTextBaseline v => c.setTextBaseline v

/-- Run a sequence of public operations (an exception leaves the state
at the throw point and the test harness carries on, as a spec-style
recorded sequence does). -/
def applyOps (env : JSEnv) (ops : List CanvasOp) (c : Ctx) : Ctx :=
  ops.foldl (fun s op => (runOp env op s).1) c

/-- the draw-call operations: exactly those that push onto the
draw-call log. -/
def isDrawOp : CanvasOp → Bool
  | .fillRect _ => true
  | .strokeRect _ => true
  | .clearRect _ => true
  | .fillText _ => true
  | .strokeText _ => true
  | .drawImage _ => true
  | .fill _ => true
  | .stroke _ => true
  | _ => false

/-- `get direction()`. -/
def Ctx.direction (c : Ctx) : JSVal := stackGet c.directionStack c.stackIndex

/-- `get fillStyle()`. -/
def Ctx.fillStyle (c : Ctx) : JSVal := stackGet c.fillStyleStack c.stackIndex

/-- `get filter()`. -/
def Ctx.filter (c : Ctx) : JSVal := stackGet c.filterStack c.stackIndex

/-- `get font()`. -/
def Ctx.font (c : Ctx) : JSVal := stackGet c.fontStack c.stackIndex

/-- `get globalAlpha()`. -/
def Ctx.globalAlpha (c : Ctx) : JSVal := stackGet c.globalAlphaStack c.stackIndex

/-- `get globalCompositeOperation()`. -/
def Ctx.globalCompositeOperation (c : Ctx) : JSVal := stackGet c.globalCompositeOperationStack c.stackIndex

/-- `get imageSmoothingEnabled()`. -/
def Ctx.imageSmoothingEnabled (c : Ctx) : JSVal := stackGet c.imageSmoothingEnabledStack c.stackIndex

/-- `get imageSmoothingQuality()`. -/
def Ctx.imageSmoothingQuality (c : Ctx) : JSVal := stackGet c.imageSmoothingQualityStack c.stackIndex

/-- `get lineCap()`. -/
def Ctx.lineCap (c : Ctx) : JSVal := stackGet c.lineCapStack c.stackIndex

/-- `get lineDashOffset()`. -/
def Ctx.lineDashOffset (c : Ctx) : JSVal := stackGet c.lineDashOffsetStack c.stackIndex

/-- `get lineJoin()`. -/
def Ctx.lineJoin (c : Ctx) : JSVal := stackGet c.lineJoinStack c.stackIndex

/-- `get lineWidth()`. -/
def Ctx.lineWidth (c : Ctx) : JSVal := stackGet c.lineWidthStack c.stackIndex

/-- `get miterLimit()`. -/
def Ctx.miterLimit (c : Ctx) : JSVal := stackGet c.miterLimitStack c.stackIndex

/-- `get shadowBlur()`. -/
def Ctx.shadowBlur (c : Ctx) : JSVal := stackGet c.shadowBlurStack c.stackIndex

/-- `get shadowColor()`. -/
def Ctx.shadowColor (c : Ctx) : JSVal := stackGet c.shadowColorStack c.stackIndex

/-- `get shadowOffsetX()`. -/
def Ctx.shadowOffsetX (c : Ctx) : JSVal := stackGet c.shadowOffsetXStack c.stackIndex

/-- `get shadowOffsetY()` (source lines 1286–1288): reads the *X-offset*
stack, as written in the source. -/
def Ctx.shadowOffsetY (c : Ctx) : JSVal := stackGet c.shadowOffsetXStack c.stackIndex

/-- `get strokeStyle()`. -/
def Ctx.strokeStyle (c : Ctx) : JSVal := stackGet c.strokeStyleStack c.stackIndex

/-- `get textAlign()`. -/
def Ctx.textAlign (c : Ctx) : JSVal := stackGet c.textAlignStack c.stackIndex

/-- `get textBaseline()`. -/
def Ctx.textBaseline (c : Ctx) : JSVal := stackGet c.textBaselineStack c.stackIndex

/-- A concrete environment for evaluating closed statements: trivial
trigonometry and external parsers that reject everything (no claim
below depends on these choices). -/
def testEnv : JSEnv where
  cos := fun _ => 1
  sin := fun _ => 0
  parseColor := fun _ => ⟨none, none⟩
  parseFont := fun _ => none

/-- Claim C1 (stack symmetry): on every context state, calling `save()` and
then immediately `restore()` returns every stacked attribute — fill and
stroke style, font, line width, dash pattern and offset, the shadow
attributes, global alpha, composite operation, the text attributes, and
the transform matrix — to its pre-save value; and `restore()` at stack
depth zero never throws, changes no state and appends no event. -/
theorem claim1_stack_symmetry (c : Ctx) :
    (((c.save).restore).fillStyle = c.fillStyle ∧
     ((c.save).restore).strokeStyle = c.strokeStyle ∧
     ((c.save).restore).font = c.font ∧
     ((c.save).restore).lineWidth = c.lineWidth ∧
     ((c.save).restore).currentDash = c.currentDash ∧
     ((c.save).restore).lineDashOffset = c.lineDashOffset ∧
     ((c.save).restore).shadowBlur = c.shadowBlur ∧
     ((c.save).restore).shadowColor = c.shadowColor ∧
     ((c.save).restore).shadowOffsetX = c.shadowOffsetX ∧
     ((c.save).restore).shadowOffsetY = c.shadowOffsetY ∧
     ((c.save).restore).globalAlpha = c.globalAlpha ∧
     ((c.save).restore).globalCompositeOperation = c.globalCompositeOperation ∧
     ((c.save).restore).textAlign = c.textAlign ∧
     ((c.save).restore).textBaseline = c.textBaseline ∧
     ((c.save).restore).direction = c.direction ∧
     ((c.save).restore).lineCap = c.lineCap ∧
     ((c.save).restore).lineJoin = c.lineJoin ∧
     ((c.save).restore).filter = c.filter ∧
     ((c.save).restore).imageSmoothingEnabled = c.imageSmoothingEnabled ∧
     ((c.save).restore).imageSmoothingQuality = c.imageSmoothingQuality ∧
     getTransformSlice ((c.save).restore) = getTransformSlice c) ∧
    (c.stackIndex = 0 → c.restore = c) ∧
    (∀ env, (runOp env .restore c).2 = none) := by
  refine ⟨?_, ?_, ?_⟩
  · simp [Ctx.save, Ctx.restore, Ctx.pushEvent, Ctx.fillStyle, Ctx.strokeStyle, Ctx.font,
      Ctx.lineWidth, Ctx.currentDash, Ctx.lineDashOffset, Ctx.shadowBlur, Ctx.shadowColor,
      Ctx.shadowOffsetX, Ctx.shadowOffsetY, Ctx.globalAlpha, Ctx.globalCompositeOperation,
      Ctx.textAlign, Ctx.textBaseline, Ctx.direction, Ctx.lineCap, Ctx.lineJoin, Ctx.filter,
      Ctx.imageSmoothingEnabled, Ctx.imageSmoothingQuality, getTransformSlice, Ctx.deref, stackGet]
  · intro h0
    simp [Ctx.restore, h0]
  · intro env
    simp [runOp]

/-- Helper: every single public operation preserves the invariant that the
draw-call log is a sublist of the event log. -/
theorem logStep (env : JSEnv) (op : CanvasOp) (c : Ctx) (h : c.drawCalls.Sublist c.events) :
    ((runOp env op c).1).drawCalls.Sublist ((runOp env op c).1).events := by
  cases op <;>
    simp only [runOp, Ctx.addHitRegion, Ctx.arc, Ctx.arcTo, Ctx.beginPath, Ctx.bezierCurveTo,
      Ctx.clearHitRegions, Ctx.clearRect, Ctx.clip, Ctx.closePath, Ctx.createImageData,
      Ctx.createLinearGradient, Ctx.createPattern, Ctx.createRadialGradient,
      Ctx.drawFocusIfNeeded, Ctx.drawImage, Ctx.ellipse, Ctx.fill, Ctx.fillRect, Ctx.fillText,
      Ctx.getImageData, Ctx.getTransform, Ctx.isPointInPath, Ctx.isPointInStroke, Ctx.lineTo,
      Ctx.measureText, Ctx.moveTo, Ctx.putImageData, Ctx.quadraticCurveTo, Ctx.rect,
      Ctx.removeHitRegion, Ctx.resetTransform, Ctx.restore, Ctx.rotate, Ctx.save, Ctx.scale,
      Ctx.scrollPathIntoView, Ctx.setLineDash, Ctx.setTransform, Ctx.setTransformWith,
      Ctx.stroke, Ctx.strokeRect, Ctx.strokeText, Ctx.transform, Ctx.translate,
      Ctx.setCurrentTransform, Ctx.setDirection, Ctx.setFillStyle, Ctx.setFilter, Ctx.setFont,
      Ctx.setGlobalAlpha, Ctx.setGlobalCompositeOperation, Ctx.setImageSmoothingEnabled,
      Ctx.setImageSmoothingQuality, Ctx.setLineCap, Ctx.setLineDashOffset, Ctx.setLineJoin,
      Ctx.setLineWidth, Ctx.setMiterLimit, Ctx.setShadowBlur, Ctx.setShadowColor,
      Ctx.setShadowOffsetX, Ctx.setShadowOffsetY, Ctx.setStrokeStyle, Ctx.setTextAlign,
      Ctx.setTextBaseline, Ctx.writeCurMatrix, Ctx.pushEvent, Ctx.pushDraw, Ctx.pushPathEvent,
      Ctx.ok, Ctx.raise] <;>
    (repeat' split) <;>
    first
      | exact h
      | exact h.trans (List.sublist_append_left _ _)
      | exact h.append (List.Sublist.refl _)

/-- Helper: an operation outside the eight draw-call operations never
changes the draw-call log. -/
theorem nonDrawStep (env : JSEnv) (op : CanvasOp) (c : Ctx) (hnd : isDrawOp op = false) :
    ((runOp env op c).1).drawCalls = c.drawCalls := by
  cases op <;>
    first
      | (simp only [runOp, Ctx.addHitRegion, Ctx.arc, Ctx.arcTo, Ctx.beginPath, Ctx.bezierCurveTo,
          Ctx.clearHitRegions, Ctx.clip, Ctx.closePath, Ctx.createImageData,
          Ctx.createLinearGradient, Ctx.createPattern, Ctx.createRadialGradient,
          Ctx.drawFocusIfNeeded, Ctx.ellipse, Ctx.getImageData, Ctx.getTransform,
          Ctx.isPointInPath, Ctx.isPointInStroke, Ctx.lineTo, Ctx.measureText, Ctx.moveTo,
          Ctx.putImageData, Ctx.quadraticCurveTo, Ctx.rect, Ctx.removeHitRegion,
          Ctx.resetTransform, Ctx.restore, Ctx.rotate, Ctx.save, Ctx.scale,
          Ctx.scrollPathIntoView, Ctx.setLineDash, Ctx.setTransform, Ctx.setTransformWith,
          Ctx.transform, Ctx.translate, Ctx.setCurrentTransform, Ctx.setDirection,
          Ctx.setFillStyle, Ctx.setFilter, Ctx.setFont, Ctx.setGlobalAlpha,
          Ctx.setGlobalCompositeOperation, Ctx.setImageSmoothingEnabled,
          Ctx.setImageSmoothingQuality, Ctx.setLineCap, Ctx.setLineDashOffset, Ctx.setLineJoin,
          Ctx.setLineWidth, Ctx.setMiterLimit, Ctx.setShadowBlur, Ctx.setShadowColor,
          Ctx.setShadowOffsetX, Ctx.setShadowOffsetY, Ctx.setStrokeStyle, Ctx.setTextAlign,
          Ctx.setTextBaseline, Ctx.writeCurMatrix, Ctx.pushEvent, Ctx.pushPathEvent,
          Ctx.ok, Ctx.raise] <;>
         (repeat' split) <;> rfl)
      | exact absurd hnd (by simp [isDrawOp])

/-- Helper: every public operation either leaves the state untouched or
raises no exception (the two can only coincide on no-ops). -/
theorem atomicStep (env : JSEnv) (op : CanvasOp) (c : Ctx) :
    (runOp env op c).1 = c ∨ (runOp env op c).2 = none := by
  cases op <;>
    simp only [runOp, Ctx.addHitRegion, Ctx.arc, Ctx.arcTo, Ctx.beginPath, Ctx.bezierCurveTo,
      Ctx.clearHitRegions, Ctx.clearRect, Ctx.clip, Ctx.closePath, Ctx.createImageData,
      Ctx.createLinearGradient, Ctx.createPattern, Ctx.createRadialGradient,
      Ctx.drawFocusIfNeeded, Ctx.drawImage, Ctx.ellipse, Ctx.fill, Ctx.fillRect, Ctx.fillText,
      Ctx.getImageData, Ctx.getTransform, Ctx.isPointInPath, Ctx.isPointInStroke, Ctx.lineTo,
      Ctx.measureText, Ctx.moveTo, Ctx.putImageData, Ctx.quadraticCurveTo, Ctx.rect,
      Ctx.removeHitRegion, Ctx.resetTransform, Ctx.restore, Ctx.rotate, Ctx.save, Ctx.scale,
      Ctx.scrollPathIntoView, Ctx.setLineDash, Ctx.setTransform, Ctx.setTransformWith,
      Ctx.stroke, Ctx.strokeRect, Ctx.strokeText, Ctx.transform, Ctx.translate,
      Ctx.setCurrentTransform, Ctx.setDirection, Ctx.setFillStyle, Ctx.setFilter, Ctx.setFont,
      Ctx.setGlobalAlpha, Ctx.setGlobalCompositeOperation, Ctx.setImageSmoothingEnabled,
      Ctx.setImageSmoothingQuality, Ctx.setLineCap, Ctx.setLineDashOffset, Ctx.setLineJoin,
      Ctx.setLineWidth, Ctx.setMiterLimit, Ctx.setShadowBlur, Ctx.setShadowColor,
      Ctx.setShadowOffsetX, Ctx.setShadowOffsetY, Ctx.setStrokeStyle, Ctx.setTextAlign,
      Ctx.setTextBaseline, Ctx.writeCurMatrix, Ctx.pushEvent, Ctx.pushDraw, Ctx.pushPathEvent,
      Ctx.ok, Ctx.raise] <;>
    (repeat' split) <;>
    first
      | exact Or.inl rfl
      | exact Or.inr rfl
      | exact Or.inl trivial
      | exact Or.inr trivial

/-- Helper: the sublist invariant is preserved by every operation
sequence. -/
theorem sublist_applyOps (env : JSEnv) (ops : List CanvasOp) :
    ∀ c : Ctx, c.drawCalls.Sublist c.events →
      ((applyOps env ops c).drawCalls).Sublist ((applyOps env ops c).events) := by
  induction ops with
  | nil => exact fun c h => h
  | cons op rest ih =>
    intro c h
    have hstep := ih ((runOp env op c).1) (logStep env op c h)
    simpa [applyOps] using hstep

/-- Helper: a JS in-bounds array write followed by a read of the same index
yields the written value. -/
theorem stackGet_set_self (l : List JSVal) (i : Nat) (v : JSVal) (h : i < l.length) :
    stackGet (l.set i v) i = v := by
  simp [stackGet, List.get?_eq_getElem?, List.getElem?_set_eq_of_lt _ h]

/-- Claim C3 (event/draw-call subset law): after every sequence of public
operations on one context, the draw-call log is a sublist of the event
log (every draw-call entry appears in the event log as an identical
record and in the same relative order); operations other than
`fillRect`, `strokeRect`, `clearRect`, `fillText`, `strokeText`,
`drawImage`, `fill` and `stroke` never add a draw-call entry; and each
of those eight does add one on a suitable input. -/
theorem claim3_subset_law :
    (∀ (env : JSEnv) (ops : List CanvasOp),
      ((applyOps env ops initCtx).drawCalls).Sublist ((applyOps env ops initCtx).events)) ∧
    (∀ (env : JSEnv) (op : CanvasOp) (c : Ctx), isDrawOp op = false →
      ((runOp env op c).1).drawCalls = c.drawCalls) ∧
    ((runOp testEnv (.fillRect [.num (.fin 0), .num (.fin 0), .num (.fin 1), .num (.fin 1)]) initCtx).1.drawCalls.length = 1 ∧
     (runOp testEnv (.strokeRect [.num (.fin 0), .num (.fin 0), .num (.fin 1), .num (.fin 1)]) initCtx).1.drawCalls.length = 1 ∧
     (runOp testEnv (.clearRect [.num (.fin 0), .num (.fin 0), .num (.fin 1), .num (.fin 1)]) initCtx).1.drawCalls.length = 1 ∧
     (runOp testEnv (.fillText [.str "a", .num (.fin 0), .num (.fin 0)]) initCtx).1.drawCalls.length = 1 ∧
     (runOp testEnv (.strokeText [.str "a", .num (.fin 0), .num (.fin 0)]) initCtx).1.drawCalls.length = 1 ∧
     (runOp testEnv (.drawImage [.image .htmlImage (.fin 4) (.fin 4) false, .num (.fin 0), .num (.fin 0)]) initCtx).1.drawCalls.length = 1 ∧
     (runOp testEnv (.fill []) initCtx).1.drawCalls.length = 1 ∧
     (runOp testEnv (.stroke []) initCtx).1.drawCalls.length = 1) := by
  refine ⟨fun env ops => sublist_applyOps env ops initCtx (List.nil_sublist _), nonDrawStep, ?_⟩
  exact ⟨rfl, rfl, rfl, rfl, rfl, rfl, rfl, rfl⟩

/-- Witness for C3 at a concrete non-drawing operation (`save`). -/
theorem claim3_subset_law_witness :
    isDrawOp CanvasOp.save = false ∧
    ((runOp testEnv CanvasOp.save initCtx).1).drawCalls = initCtx.drawCalls :=
  ⟨rfl, claim3_subset_law.2.1 testEnv CanvasOp.save initCtx rfl⟩

/-- Claim C7 (raised failures are atomic): whenever a public operation
raises an exception, the state after the call — every attribute stack,
the depth cursor, the current path, the transform heap, the event log
and the draw-call log — is exactly the state before the call, and no
event is appended. -/
theorem claim7_raise_atomic (env : JSEnv) (op : CanvasOp) (c : Ctx) (e : Err)
    (h : (runOp env op c).2 = some e) : (runOp env op c).1 = c := by
  rcases atomicStep env op c with h1 | h2
  · exact h1
  · simp [h2] at h

/-- Witness for C7: `arc()` with zero arguments raises and leaves the
fresh context untouched. -/
theorem claim7_raise_atomic_witness :
    (runOp testEnv (.arc []) initCtx).2 = some (Err.typeError "Failed to execute \x27arc\x27 on \x27CanvasRenderingContext2D\x27: 5 arguments required, but only 0 present.") ∧
    (runOp testEnv (.arc []) initCtx).1 = initCtx :=
  ⟨rfl, claim7_raise_atomic testEnv (.arc []) initCtx _ rfl⟩

set_option maxRecDepth 8000 in
/-- Claim C8 (arity enforcement for `arc`): a call with fewer than five
arguments — four or fewer, of any values — raises a `TypeError` whose
message names the operation and the required and the provided argument
counts (stated generically for every arity below five, and with the
literal message for the four-argument call); a call with five finite
numeric arguments and a non-negative radius raises nothing and appends
the arc segment to the path and the event log. -/
theorem claim8_arc_arity :
    (∀ (env : JSEnv) (c : Ctx) (args : List JSVal), args.length < 5 →
      runOp env (.arc args) c =
        (c, some (.typeError ("Failed to execute \x27arc\x27 on \x27CanvasRenderingContext2D\x27: 5 arguments required, but only " ++ toString args.length ++ " present.")))) ∧
    (∀ (env : JSEnv) (c : Ctx) (v1 v2 v3 v4 : JSVal),
      runOp env (.arc [v1, v2, v3, v4]) c =
        (c, some (.typeError "Failed to execute \x27arc\x27 on \x27CanvasRenderingContext2D\x27: 5 arguments required, but only 4 present."))) ∧
    (∀ (env : JSEnv) (c : Ctx) (x y r sa ea : ℚ), 0 ≤ r →
      runOp env (.arc [.num (.fin x), .num (.fin y), .num (.fin r), .num (.fin sa), .num (.fin ea)]) c =
        (c.pushPathEvent (.mk "arc" (getTransformSlice c)
          [("x", .num (.fin x)), ("y", .num (.fin y)), ("radius", .num (.fin r)),
           ("startAngle", .num (.fin sa)), ("endAngle", .num (.fin ea)),
           ("anticlockwise", .bool false)]), none)) := by
  refine ⟨?_, ?_, ?_⟩
  · intro env c args hlen
    simp [runOp, Ctx.arc, hlen, Ctx.raise]
  · intro env c v1 v2 v3 v4
    show (c, some (Err.typeError _)) = _
    norm_num
    rfl
  · intro env c x y r sa ea hr
    have hnr : ¬(r < 0) := not_lt.mpr hr
    simp [runOp, Ctx.arc, argN, jsToNumber, jsScalarToNumber, JSNum.add, JSNum.isFinite,
      JSNum.lt, jsTruthy, hnr, Ctx.raise, Ctx.ok]

/-- Witness for C8: the zero-argument call raises the arity failure and
a five-argument call with radius 5 succeeds. -/
theorem claim8_arc_arity_witness :
    ([] : List JSVal).length < 5 ∧
    runOp testEnv (.arc []) initCtx =
      (initCtx, some (.typeError ("Failed to execute \x27arc\x27 on \x27CanvasRenderingContext2D\x27: 5 arguments required, but only " ++ toString ([] : List JSVal).length ++ " present."))) ∧
    (0 : ℚ) ≤ 5 ∧
    runOp testEnv (.arc [.num (.fin 1), .num (.fin 2), .num (.fin 5), .num (.fin 0), .num (.fin 3)]) initCtx =
      (initCtx.pushPathEvent (.mk "arc" (getTransformSlice initCtx)
        [("x", .num (.fin 1)), ("y", .num (.fin 2)), ("radius", .num (.fin 5)),
         ("startAngle", .num (.fin 0)), ("endAngle", .num (.fin 3)),
         ("anticlockwise", .bool false)]), none) :=
  ⟨by decide,
   claim8_arc_arity.1 testEnv initCtx [] (by decide),
   by norm_num,
   claim8_arc_arity.2.2 testEnv initCtx 1 2 5 0 3 (by norm_num)⟩

/-- Witness for C1 on the fresh context (depth zero). -/
theorem claim1_stack_symmetry_witness :
    initCtx.stackIndex = 0 ∧ initCtx.restore = initCtx ∧
    ((initCtx.save).restore).lineWidth = initCtx.lineWidth :=
  ⟨rfl, (claim1_stack_symmetry initCtx).2.1 rfl, (claim1_stack_symmetry initCtx).1.2.2.2.1⟩

/-- Claim C6 (shadow-offset-Y aliasing): the `shadowOffsetY` setter and
getter read and write the X-offset stack instead of their own — after
assigning a finite value, both the `shadowOffsetY` and the
`shadowOffsetX` getter return it, and the stored Y-offset stack is left
unchanged. -/
theorem claim6_shadow_offset_alias (c : Ctx) (q : ℚ)
    (hidx : c.stackIndex < c.shadowOffsetXStack.length) :
    ((c.setShadowOffsetY (.num (.fin q))).1).shadowOffsetY = .num (.fin q) ∧
    ((c.setShadowOffsetY (.num (.fin q))).1).shadowOffsetX = .num (.fin q) ∧
    ((c.setShadowOffsetY (.num (.fin q))).1).shadowOffsetYStack = c.shadowOffsetYStack ∧
    (c.setShadowOffsetY (.num (.fin q))).2 = none := by
  refine ⟨?_, ?_, rfl, rfl⟩ <;>
    simp [Ctx.setShadowOffsetY, Ctx.shadowOffsetY, Ctx.shadowOffsetX, jsToNumber,
      jsScalarToNumber, JSNum.isFinite, Ctx.pushEvent, Ctx.ok, stackGet_set_self _ _ _ hidx]

/-- Witness for C6 on the fresh context with value 5. -/
theorem claim6_shadow_offset_alias_witness :
    initCtx.stackIndex < initCtx.shadowOffsetXStack.length ∧
    ((initCtx.setShadowOffsetY (.num (.fin 5))).1).shadowOffsetY = .num (.fin 5) ∧
    ((initCtx.setShadowOffsetY (.num (.fin 5))).1).shadowOffsetX = .num (.fin 5) ∧
    ((initCtx.setShadowOffsetY (.num (.fin 5))).1).shadowOffsetYStack = initCtx.shadowOffsetYStack :=
  ⟨by decide,
   (claim6_shadow_offset_alias initCtx 5 (by decide)).1,
   (claim6_shadow_offset_alias initCtx 5 (by decide)).2.1,
   (claim6_shadow_offset_alias initCtx 5 (by decide)).2.2.1⟩

/-- Claim C10: assigning a finite positive value to `miterLimit` updates
the miter-limit attribute of the current frame (the getter then returns
it) but appends an event whose type field is the string "lineWidth",
not "miterLimit". -/
theorem claim10_miterlimit_event (c : Ctx) (q : ℚ) (hq : 0 < q)
    (hidx : c.stackIndex < c.miterLimitStack.length) :
    ((c.setMiterLimit (.num (.fin q))).1).miterLimit = .num (.fin q) ∧
    ((c.setMiterLimit (.num (.fin q))).1).events =
      c.events ++ [CEvent.mk "lineWidth" (getTransformSlice c) [("value", .num (.fin q))]] ∧
    (c.setMiterLimit (.num (.fin q))).2 = none := by
  have hlt : JSNum.lt (.fin 0) (.fin q) = true := by simp [JSNum.lt, hq]
  refine ⟨?_, ?_, ?_⟩ <;>
    simp [Ctx.setMiterLimit, Ctx.miterLimit, jsToNumber, jsScalarToNumber, JSNum.isFinite,
      hlt, Ctx.pushEvent, Ctx.ok, stackGet_set_self _ _ _ hidx, getTransformSlice, Ctx.deref,
      stackGet, List.getElem?_set_eq_of_lt _ hidx]

/-- Witness for C10 on the fresh context with value 5. -/
theorem claim10_miterlimit_event_witness :
    (0 : ℚ) < 5 ∧ initCtx.stackIndex < initCtx.miterLimitStack.length ∧
    ((initCtx.setMiterLimit (.num (.fin 5))).1).miterLimit = .num (.fin 5) ∧
    ((initCtx.setMiterLimit (.num (.fin 5))).1).events =
      initCtx.events ++ [CEvent.mk "lineWidth" (getTransformSlice initCtx) [("value", .num (.fin 5))]] :=
  ⟨by norm_num, by decide,
   (claim10_miterlimit_event initCtx 5 (by norm_num) (by decide)).1,
   (claim10_miterlimit_event initCtx 5 (by norm_num) (by decide)).2.1⟩

/-- Claim C9 (path round trip): on a fresh context,
`beginPath(); rect(0,0,10,10); stroke()` leaves the current path with
exactly two segments — the `beginPath` sentinel followed by the `rect`
segment (`stroke` adds no path segment) — and the draw-call log with
exactly one entry, the stroke record carrying a copy of that
two-segment path. -/
theorem claim9_round_trip (env : JSEnv) :
    (applyOps env [.beginPath,
        .rect [.num (.fin 0), .num (.fin 0), .num (.fin 10), .num (.fin 10)],
        .stroke []] initCtx).path =
      [CEvent.mk "beginPath" identityMat [],
       CEvent.mk "rect" identityMat
         [("x", .num (.fin 0)), ("y", .num (.fin 0)),
          ("width", .num (.fin 10)), ("height", .num (.fin 10))]] ∧
    (applyOps env [.beginPath,
        .rect [.num (.fin 0), .num (.fin 0), .num (.fin 10), .num (.fin 10)],
        .stroke []] initCtx).drawCalls =
      [CEvent.mk "stroke" identityMat
        [("path", .segs
          [CEvent.mk "beginPath" identityMat [],
           CEvent.mk "rect" identityMat
             [("x", .num (.fin 0)), ("y", .num (.fin 0)),
              ("width", .num (.fin 10)), ("height", .num (.fin 10))]])]] :=
  ⟨rfl, rfl⟩

/-- Counterexample to claim C4 as stated: every argument of
`rect("1","2","3","4")` coerces to a finite number, yet the call
silently no-ops (state unchanged, no event appended, nothing raised),
because the finite short-circuit runs on the raw `+`-sum of the
uncoerced arguments, which for strings is a concatenation. -/
theorem claim4_coercion_counterexample :
    jsToNumber (.str "1") = .fin 1 ∧ jsToNumber (.str "2") = .fin 2 ∧
    jsToNumber (.str "3") = .fin 3 ∧ jsToNumber (.str "4") = .fin 4 ∧
    runOp testEnv (.rect [.str "1", .str "2", .str "3", .str "4"]) initCtx = (initCtx, none) ∧
    (runOp testEnv (.rect [.str "1", .str "2", .str "3", .str "4"]) initCtx).1.events = [] :=
  ⟨rfl, rfl, rfl, rfl, rfl, rfl⟩

/-- Helper: a finite JS numeric sum has finite summands. -/
theorem add_isFinite (m n : JSNum) (h : (m.add n).isFinite = true) :
    m.isFinite = true ∧ n.isFinite = true := by
  cases m <;> cases n <;>
    first
      | (simp_all [JSNum.add, JSNum.isFinite]; done)
      | (simp only [JSNum.add] at h
         split_ifs at h <;> simp_all [JSNum.isFinite])

/-- Helper: a string is string-like for `+`. -/
theorem jsIsStringy_str (s : String) : jsIsStringy (.str s) = true := rfl

/-- Helper: a number is not string-like for `+`. -/
theorem jsIsStringy_num (n : JSNum) : jsIsStringy (.num n) = false := rfl

/-- Helper: `Number.isFinite` of a string is false (no coercion). -/
theorem jsIsFinite_str (s : String) : jsIsFinite (.str s) = false := rfl

/-- Helper: `Number.isFinite` of a number is its finiteness. -/
theorem jsIsFinite_num (n : JSNum) : jsIsFinite (.num n) = n.isFinite := rfl

/-- Helper: when the raw two-argument `+`-sum is a finite number, both
arguments have finite numeric coercions. -/
theorem raw2_finite (v1 v2 : JSVal)
    (h : jsIsFinite (jsValAdd v1 v2) = true) :
    (jsToNumber v1).isFinite = true ∧ (jsToNumber v2).isFinite = true := by
  by_cases h12 : (jsIsStringy v1 || jsIsStringy v2) = true
  · simp [jsValAdd, h12, jsIsFinite_str] at h
  · simp only [Bool.or_eq_true, not_or, Bool.not_eq_true] at h12
    obtain ⟨e1, e2⟩ := h12
    simp [jsValAdd, e1, e2, jsIsFinite_num] at h
    exact add_isFinite _ _ h

/-- Helper: when the raw four-argument `+`-sum is a finite number, every
argument has a finite numeric coercion. -/
theorem raw4_finite (v1 v2 v3 v4 : JSVal)
    (h : jsIsFinite (jsValAdd (jsValAdd (jsValAdd v1 v2) v3) v4) = true) :
    (jsToNumber v1).isFinite = true ∧ (jsToNumber v2).isFinite = true ∧
    (jsToNumber v3).isFinite = true ∧ (jsToNumber v4).isFinite = true := by
  by_cases h12 : (jsIsStringy v1 || jsIsStringy v2) = true
  · simp [jsValAdd, h12, jsIsStringy_str, jsIsFinite_str] at h
  · by_cases h3 : jsIsStringy v3 = true
    · simp [jsValAdd, h3, jsIsStringy_str, jsIsFinite_str] at h
    · by_cases h4 : jsIsStringy v4 = true
      · simp [jsValAdd, h4, jsIsFinite_str] at h
      · simp only [Bool.or_eq_true, not_or, Bool.not_eq_true] at h12
        obtain ⟨e1, e2⟩ := h12
        simp only [Bool.not_eq_true] at h3 h4
        simp [jsValAdd, e1, e2, h3, h4, jsIsStringy_num, jsIsFinite_num] at h
        obtain ⟨h123, hf4⟩ := add_isFinite _ _ h
        obtain ⟨hh12, hf3⟩ := add_isFinite _ _ h123
        obtain ⟨hf1, hf2⟩ := add_isFinite _ _ hh12
        exact ⟨hf1, hf2, hf3, hf4⟩

/-- Claim C4 as amended: for `rect`, `fillRect`, `clearRect` and
`moveTo` the finite-value short-circuit is applied to the raw JS
`+`-sum of the uncoerced arguments rather than to the coerced values:
when the raw sum is a finite number the operation appends its event
carrying the coerced numeric values, and when the raw sum is not a
finite number the operation silently no-ops — in particular a call with
a string argument always no-ops, even when every argument coerces to a
finite number (the counterexample); it remains true that whenever any
coerced value is non-finite the operation silently no-ops. -/
theorem claim4_raw_coercion_amended (env : JSEnv) (c : Ctx) :
    (∀ v1 v2 v3 v4 : JSVal, jsIsFinite (jsValAdd (jsValAdd (jsValAdd v1 v2) v3) v4) = true →
      runOp env (.rect [v1, v2, v3, v4]) c =
        (c.pushPathEvent (.mk "rect" (getTransformSlice c)
          [("x", .num (jsToNumber v1)), ("y", .num (jsToNumber v2)),
           ("width", .num (jsToNumber v3)), ("height", .num (jsToNumber v4))]), none) ∧
      runOp env (.fillRect [v1, v2, v3, v4]) c =
        (c.pushDraw (.mk "fillRect" (getTransformSlice c)
          [("x", .num (jsToNumber v1)), ("y", .num (jsToNumber v2)),
           ("width", .num (jsToNumber v3)), ("height", .num (jsToNumber v4))]), none) ∧
      runOp env (.clearRect [v1, v2, v3, v4]) c =
        (c.pushDraw (.mk "clearRect" (getTransformSlice c)
          [("x", .num (jsToNumber v1)), ("y", .num (jsToNumber v2)),
           ("width", .num (jsToNumber v3)), ("height", .num (jsToNumber v4))]), none)) ∧
    (∀ v1 v2 : JSVal, jsIsFinite (jsValAdd v1 v2) = true →
      runOp env (.moveTo [v1, v2]) c =
        (c.pushPathEvent (.mk "moveTo" (getTransformSlice c)
          [("x", .num (jsToNumber v1)), ("y", .num (jsToNumber v2))]), none)) ∧
    (∀ v1 v2 v3 v4 : JSVal, jsIsFinite (jsValAdd (jsValAdd (jsValAdd v1 v2) v3) v4) = false →
      runOp env (.rect [v1, v2, v3, v4]) c = (c, none) ∧
      runOp env (.fillRect [v1, v2, v3, v4]) c = (c, none) ∧
      runOp env (.clearRect [v1, v2, v3, v4]) c = (c, none)) ∧
    (∀ v1 v2 : JSVal, jsIsFinite (jsValAdd v1 v2) = false →
      runOp env (.moveTo [v1, v2]) c = (c, none)) ∧
    (∀ v1 v2 v3 v4 : JSVal,
      ((jsToNumber v1).isFinite = false ∨ (jsToNumber v2).isFinite = false ∨
       (jsToNumber v3).isFinite = false ∨ (jsToNumber v4).isFinite = false) →
      runOp env (.rect [v1, v2, v3, v4]) c = (c, none) ∧
      runOp env (.fillRect [v1, v2, v3, v4]) c = (c, none) ∧
      runOp env (.clearRect [v1, v2, v3, v4]) c = (c, none)) ∧
    (∀ v1 v2 : JSVal,
      ((jsToNumber v1).isFinite = false ∨ (jsToNumber v2).isFinite = false) →
      runOp env (.moveTo [v1, v2]) c = (c, none)) := by
  have neg4 : ∀ v1 v2 v3 v4 : JSVal,
      jsIsFinite (jsValAdd (jsValAdd (jsValAdd v1 v2) v3) v4) = false →
      runOp env (.rect [v1, v2, v3, v4]) c = (c, none) ∧
      runOp env (.fillRect [v1, v2, v3, v4]) c = (c, none) ∧
      runOp env (.clearRect [v1, v2, v3, v4]) c = (c, none) := by
    intro v1 v2 v3 v4 hnf
    refine ⟨?_, ?_, ?_⟩ <;>
      simp [runOp, Ctx.rect, Ctx.fillRect, Ctx.clearRect, argN, hnf, Ctx.ok]
  have neg2 : ∀ v1 v2 : JSVal, jsIsFinite (jsValAdd v1 v2) = false →
      runOp env (.moveTo [v1, v2]) c = (c, none) := by
    intro v1 v2 hnf
    simp [runOp, Ctx.moveTo, argN, hnf, Ctx.ok]
  refine ⟨?_, ?_, neg4, neg2, ?_, ?_⟩
  · intro v1 v2 v3 v4 hf
    refine ⟨?_, ?_, ?_⟩ <;>
      simp [runOp, Ctx.rect, Ctx.fillRect, Ctx.clearRect, argN, hf, Ctx.pushPathEvent,
        Ctx.pushDraw, Ctx.ok]
  · intro v1 v2 hf
    simp [runOp, Ctx.moveTo, argN, hf, Ctx.pushPathEvent, Ctx.ok]
  · intro v1 v2 v3 v4 hd
    cases hfr : jsIsFinite (jsValAdd (jsValAdd (jsValAdd v1 v2) v3) v4) with
    | false => exact neg4 v1 v2 v3 v4 hfr
    | true =>
      obtain ⟨f1, f2, f3, f4⟩ := raw4_finite v1 v2 v3 v4 hfr
      rcases hd with h | h | h | h <;> simp_all
  · intro v1 v2 hd
    cases hfr : jsIsFinite (jsValAdd v1 v2) with
    | false => exact neg2 v1 v2 hfr
    | true =>
      obtain ⟨f1, f2⟩ := raw2_finite v1 v2 hfr
      rcases hd with h | h <;> simp_all

/-- Witness for the amended C4: the all-null call (non-number arguments
with finite coercions and a finite raw sum) appends its event; NaN
inputs no-op through both the raw-sum clause and the coerced-value
clause. -/
theorem claim4_raw_coercion_amended_witness :
    jsIsFinite (jsValAdd (jsValAdd (jsValAdd JSVal.null JSVal.null) JSVal.null) JSVal.null) = true ∧
    runOp testEnv (.rect [JSVal.null, JSVal.null, JSVal.null, JSVal.null]) initCtx =
      (initCtx.pushPathEvent (.mk "rect" (getTransformSlice initCtx)
        [("x", .num (jsToNumber JSVal.null)), ("y", .num (jsToNumber JSVal.null)),
         ("width", .num (jsToNumber JSVal.null)), ("height", .num (jsToNumber JSVal.null))]), none) ∧
    jsIsFinite (jsValAdd (.num .nan) (.num (.fin 0))) = false ∧
    runOp testEnv (.moveTo [.num .nan, .num (.fin 0)]) initCtx = (initCtx, none) ∧
    (jsToNumber (JSVal.num .nan)).isFinite = false ∧
    runOp testEnv (.rect [.num .nan, .num (.fin 0), .num (.fin 0), .num (.fin 0)]) initCtx = (initCtx, none) :=
  ⟨rfl,
   ((claim4_raw_coercion_amended testEnv initCtx).1 JSVal.null JSVal.null JSVal.null JSVal.null rfl).1,
   rfl,
   (claim4_raw_coercion_amended testEnv initCtx).2.2.2.1 (.num .nan) (.num (.fin 0)) rfl,
   rfl,
   ((claim4_raw_coercion_amended testEnv initCtx).2.2.2.2.1 (.num .nan) (.num (.fin 0))
     (.num (.fin 0)) (.num (.fin 0)) (Or.inl rfl)).1⟩

/-- Helper: a heap dereference producing a nonempty array pins down a
valid `ref`. -/
theorem deref_ref_of_ne_nil (c : Ctx) (v : JSVal) (m : List JSNum) (hne : m ≠ [])
    (h : c.deref v = m) : ∃ r, v = .ref r ∧ c.heap.get? r = some m ∧ r < c.heap.length := by
  cases v
  case ref r =>
    cases hg : c.heap.get? r with
    | none =>
      simp only [Ctx.deref, hg, Option.getD] at h
      exact absurd h.symm hne
    | some m2 =>
      simp only [Ctx.deref, hg, Option.getD] at h
      subst h
      exact ⟨r, rfl, hg, (List.get?_eq_some.mp hg).1⟩
  all_goals
    simp only [Ctx.deref] at h
    exact absurd h.symm hne

/-- Claim C2 (transform composition): `transform(a,b,c,d,e,f)` with
finite arguments replaces the current matrix `(sa,sb,sc,sd,se,sf)` with
the right-multiplication current ∘ given, entry by entry as claimed;
`scale(2,3)` applied to the identity matrix yields `(2,0,0,3,0,0)`; and
`translate(10,0)` followed by `rotate(0)` yields the same matrix as
`translate(10,0)` alone (given that the external cosine and sine are
exact at 0). -/
theorem claim2_transform_composition :
    (∀ (c : Ctx) (sa sb sc sd se sf a b c2 d e f : ℚ),
      getTransformSlice c = [.fin sa, .fin sb, .fin sc, .fin sd, .fin se, .fin sf] →
      getTransformSlice ((c.transform [.num (.fin a), .num (.fin b), .num (.fin c2),
          .num (.fin d), .num (.fin e), .num (.fin f)]).1) =
        [.fin (sa * a + sc * b), .fin (sb * a + sd * b), .fin (sa * c2 + sc * d),
         .fin (sb * c2 + sd * d), .fin (sa * e + sc * f + se), .fin (sb * e + sd * f + sf)]) ∧
    (getTransformSlice ((initCtx.scale [.num (.fin 2), .num (.fin 3)]).1) =
      [.fin 2, .fin 0, .fin 0, .fin 3, .fin 0, .fin 0]) ∧
    (∀ env : JSEnv, env.cos 0 = 1 → env.sin 0 = 0 →
      getTransformSlice (applyOps env [.translate [.num (.fin 10), .num (.fin 0)],
          .rotate [.num (.fin 0)]] initCtx) =
        getTransformSlice (applyOps env [.translate [.num (.fin 10), .num (.fin 0)]] initCtx)) := by
  refine ⟨?_, ?_, ?_⟩
  · intro c sa sb sc sd se sf a b c2 d e f hm
    obtain ⟨r, hv, hr, hlt⟩ := deref_ref_of_ne_nil c _ _ (by simp) hm
    have hv2 : c.transformStack[c.stackIndex]?.getD JSVal.undefined = JSVal.ref r := by
      simpa [stackGet, List.get?_eq_getElem?] using hv
    have hr2 : c.heap[r]? =
        some [JSNum.fin sa, JSNum.fin sb, JSNum.fin sc, JSNum.fin sd, JSNum.fin se, JSNum.fin sf] := by
      simpa [List.get?_eq_getElem?] using hr
    simp [Ctx.transform, argN, jsToNumber, jsScalarToNumber, JSNum.add, JSNum.isFinite,
      JSNum.mul, mGet, hv2, hr2, Ctx.writeCurMatrix, Ctx.pushEvent, Ctx.ok,
      getTransformSlice, Ctx.deref, stackGet, List.get?_eq_getElem?,
      List.getElem?_set_eq_of_lt _ hlt]
  · simp [Ctx.scale, initCtx, getTransformSlice, Ctx.writeCurMatrix, Ctx.deref, stackGet, argN,
      jsToNumber, jsScalarToNumber, JSNum.isFinite, mGet, identityMat, JSNum.mul, Ctx.pushEvent,
      Ctx.ok, Ctx.raise]
  · intro env hc hs
    simp [applyOps, runOp, Ctx.translate, Ctx.rotate, initCtx, getTransformSlice,
      Ctx.writeCurMatrix, Ctx.deref, stackGet, argN, jsToNumber, jsScalarToNumber,
      JSNum.isFinite, JSNum.add, mGet, identityMat, JSNum.mul, JSNum.sub, JSNum.neg,
      Ctx.pushEvent, Ctx.ok, Ctx.raise, hc, hs]

/-- Witness for C2 on the fresh context. -/
theorem claim2_transform_composition_witness :
    getTransformSlice initCtx = [.fin 1, .fin 0, .fin 0, .fin 1, .fin 0, .fin 0] ∧
    getTransformSlice ((initCtx.transform [.num (.fin 1), .num (.fin 2), .num (.fin 3),
        .num (.fin 4), .num (.fin 5), .num (.fin 6)]).1) =
      [.fin (1 * 1 + 0 * 2), .fin (0 * 1 + 1 * 2), .fin (1 * 3 + 0 * 4),
       .fin (0 * 3 + 1 * 4), .fin (1 * 5 + 0 * 6 + 0), .fin (0 * 5 + 1 * 6 + 0)] ∧
    testEnv.cos 0 = 1 ∧ testEnv.sin 0 = 0 ∧
    getTransformSlice (applyOps testEnv [.translate [.num (.fin 10), .num (.fin 0)],
        .rotate [.num (.fin 0)]] initCtx) =
      getTransformSlice (applyOps testEnv [.translate [.num (.fin 10), .num (.fin 0)]] initCtx) :=
  ⟨rfl,
   claim2_transform_composition.1 initCtx 1 0 0 1 0 0 1 2 3 4 5 6 rfl,
   rfl, rfl,
   claim2_transform_composition.2.2 testEnv rfl rfl⟩

/-- Helper: the `setLineDash` validation loop accepts a list of
non-negative finite numbers verbatim. -/
theorem collectDash_map (l : List ℚ) :
    ∀ acc : List JSNum, (∀ q ∈ l, 0 ≤ q) →
      collectDash (l.map (fun q => JSVal.num (.fin q))) acc = some (acc ++ l.map JSNum.fin) := by
  induction l with
  | nil => intro acc _; simp [collectDash]
  | cons q rest ih =>
    intro acc h
    have hq : 0 ≤ q := h q (List.mem_cons_self q rest)
    have hrest : ∀ x ∈ rest, 0 ≤ x := fun x hx => h x (List.mem_cons_of_mem q hx)
    simp [collectDash, jsToNumber, jsScalarToNumber, hq, ih (acc ++ [JSNum.fin q]) hrest]

/-- Claim C5 as amended: `setLineDash` stores an odd-length array of
finite non-negative elements concatenated with itself (even-length
arrays as given) in a fresh heap cell, and `getLineDash()` returns the
stored *live* array — the very reference held in the stack — so mutating
the array behind the returned reference does change the dash state the
context reads. -/
theorem claim5_dash_amended (c : Ctx) (l : List ℚ)
    (hpos : ∀ q ∈ l, 0 ≤ q) (hidx : c.stackIndex < c.lineDashStack.length) :
    (c.setLineDash [.arr (l.map (fun q => JSVal.num (.fin q)))]).2 = none ∧
    ((c.setLineDash [.arr (l.map (fun q => JSVal.num (.fin q)))]).1).currentDash =
      (if l.length % 2 = 1 then l ++ l else l).map JSNum.fin ∧
    ((c.setLineDash [.arr (l.map (fun q => JSVal.num (.fin q)))]).1).getLineDashRet =
      .ref c.heap.length ∧
    (∀ newl : List JSNum,
      (((c.setLineDash [.arr (l.map (fun q => JSVal.num (.fin q)))]).1).writeArr
          c.heap.length newl).currentDash = newl) := by
  have hc := collectDash_map l [] hpos
  by_cases hp : l.length % 2 = 1 <;>
    refine ⟨?_, ?_, ?_, ?_⟩ <;>
      simp [Ctx.setLineDash, argN, hc, hp, Ctx.currentDash, Ctx.getLineDashRet, Ctx.deref,
        Ctx.writeArr, Ctx.pushEvent, Ctx.ok, stackGet, List.get?_eq_getElem?,
        List.getElem?_set_eq_of_lt _ hidx]

/-- Witness for the amended C5 at `[1,2,3]` on the fresh context. -/
theorem claim5_dash_amended_witness :
    (∀ q ∈ ([1, 2, 3] : List ℚ), 0 ≤ q) ∧
    initCtx.stackIndex < initCtx.lineDashStack.length ∧
    ((initCtx.setLineDash [.arr ([1, 2, 3].map (fun q : ℚ => JSVal.num (.fin q)))]).1).currentDash =
      (if ([1, 2, 3] : List ℚ).length % 2 = 1 then [1, 2, 3] ++ [1, 2, 3] else [1, 2, 3]).map JSNum.fin :=
  ⟨by norm_num, by decide,
   (claim5_dash_amended initCtx [1, 2, 3] (by norm_num) (by decide)).2.1⟩

/-- Counterexample to claim C5 as stated: after `setLineDash([1,2,3])`
the stored pattern is `[1,2,3,1,2,3]` and `getLineDash()` returns the
live heap reference (cell 2); mutating the array behind that reference
changes what the context subsequently reads as its dash state, so the
returned value is not a copy. -/
theorem claim5_dash_counterexample :
    ((runOp testEnv (.setLineDash [.arr [.num (.fin 1), .num (.fin 2), .num (.fin 3)]]) initCtx).1).currentDash =
      [.fin 1, .fin 2, .fin 3, .fin 1, .fin 2, .fin 3] ∧
    ((runOp testEnv (.setLineDash [.arr [.num (.fin 1), .num (.fin 2), .num (.fin 3)]]) initCtx).1).getLineDashRet =
      .ref 2 ∧
    (((runOp testEnv (.setLineDash [.arr [.num (.fin 1), .num (.fin 2), .num (.fin 3)]]) initCtx).1).writeArr 2
        [.fin 1, .fin 2, .fin 3, .fin 1, .fin 2, .fin 3, .fin 9]).currentDash =
      [.fin 1, .fin 2, .fin 3, .fin 1, .fin 2, .fin 3, .fin 9] ∧
    [JSNum.fin 1, .fin 2, .fin 3, .fin 1, .fin 2, .fin 3, .fin 9] ≠
      ([.fin 1, .fin 2, .fin 3, .fin 1, .fin 2, .fin 3] : List JSNum) := by
  refine ⟨rfl, rfl, rfl, ?_⟩
  intro hcontra
  simpa using congrArg List.length hcontra
